import Mathlib

/-!
# Workload identity resources of `pkg/cluster`

A shallow embedding of `pkg/cluster/workloadidentityresources.go` and the
properties of its four functions:

* `generateWorkloadIdentityResources`
* `generatePlatformWorkloadIdentitySecrets`
* `generateCloudCredentialOperatorSecret`
* `generateAuthenticationConfig`

Conventions of the embedding.

* A Go `error` is its message; a Go result `(x, err)` is a pair whose second
  component is `none` for the `nil` error.
* A pointer that a function may return as `nil` is an `Option`.
* A Go `map[string]T` is an association list with pairwise distinct keys, kept in
  the order of first insertion; assignment `m[k] = v` is `GoMap.set`.
* Struct fields keep their Go names.
-/

set_option autoImplicit false

namespace cluster

/-! ## Go maps with string keys -/

/-- Go `map[string]β`, as the list of its entries. -/
abbrev GoMap (β : Type) := List (String × β)

namespace GoMap

variable {β : Type}

/-- The empty map literal `map[string]β{}`. -/
def empty : GoMap β := []

/-- Lookup `v, ok := m[k]`. -/
def get : GoMap β → String → Option β
  | [], _ => none
  | (k', v) :: rest, k => if k' = k then some v else get rest k

/-- Assignment `m[k] = v`: the value of an existing key is replaced, a new key
is added. -/
def set : GoMap β → String → β → GoMap β
  | [], k, v => [(k, v)]
  | (k', v') :: rest, k, v => if k' = k then (k, v) :: rest else (k', v') :: set rest k v

/-- The keys of the map. -/
def keys (m : GoMap β) : List String := m.map Prod.fst

/-- The builtin `len(m)`. -/
def len (m : GoMap β) : Nat := m.length

end GoMap

/-- Go `error` values, identified by their message. -/
abbrev GoError := String

/-! ## Kubernetes and OpenShift API objects -/

/-- Type `metav1.TypeMeta`. -/
structure TypeMeta where
  APIVersion : String
  Kind : String
deriving DecidableEq, Repr

/-- Type `metav1.ObjectMeta` (the fields this package sets). -/
structure ObjectMeta where
  Namespace : String
  Name : String
deriving DecidableEq, Repr

/-- Type `corev1.Secret`. `Data` is the binary payload, `StringData` the string
payload; a `nil` map is the empty map. -/
structure Secret where
  TypeMeta : TypeMeta
  ObjectMeta : ObjectMeta
  Data : GoMap (List Nat)
  StringData : GoMap String
  Type_ : String
deriving DecidableEq, Repr

/-- Type `configv1.AuthenticationSpec`. -/
structure AuthenticationSpec where
  ServiceAccountIssuer : String
deriving DecidableEq, Repr

/-- Type `configv1.Authentication`. -/
structure Authentication where
  TypeMeta : TypeMeta
  ObjectMeta : ObjectMeta
  Spec : AuthenticationSpec
deriving DecidableEq, Repr

/-- The interface `kruntime.Object`, restricted to the two pointer types this
package stores in it. -/
inductive Object where
  | secret (p : Option Secret)
  | authentication (p : Option Authentication)
deriving DecidableEq, Repr

/-- Value of `corev1.SchemeGroupVersion.Identifier()`: the core group is the
empty group, whose identifier is the bare version. -/
def corev1SchemeGroupVersionIdentifier : String := "v1"

/-- Value of `configv1.SchemeGroupVersion.Identifier()`. -/
def configv1SchemeGroupVersionIdentifier : String := "config.openshift.io/v1"

/-- Constant `corev1.SecretTypeOpaque`. -/
def corev1SecretTypeOpaque : String := "Opaque"

/-! ## Cluster, subscription and role documents -/

/-- Type `api.PlatformWorkloadIdentity` (the fields read here). -/
structure PlatformWorkloadIdentity where
  OperatorName : String
  ClientID : String
deriving DecidableEq, Repr

/-- Type `api.PlatformWorkloadIdentityProfile`. -/
structure PlatformWorkloadIdentityProfile where
  PlatformWorkloadIdentities : List PlatformWorkloadIdentity
deriving DecidableEq, Repr

/-- Type `api.ClusterProfile`; `OIDCIssuer` is a pointer to a string type. -/
structure ClusterProfile where
  OIDCIssuer : Option String
deriving DecidableEq, Repr

/-- Type `api.OpenShiftClusterProperties`. The workload identity profile is held by
value: the record is taken to carry one, with a possibly empty list of identities. -/
structure OpenShiftClusterProperties where
  ClusterProfile : ClusterProfile
  PlatformWorkloadIdentityProfile : PlatformWorkloadIdentityProfile
deriving DecidableEq, Repr

/-- Type `api.OpenShiftCluster`. The method `UsesWorkloadIdentity()` is declared
outside this file; its result is carried as a field. -/
structure OpenShiftCluster where
  Location : String
  Properties : OpenShiftClusterProperties
  UsesWorkloadIdentity : Bool
deriving DecidableEq, Repr

/-- Type `api.OpenShiftClusterDocument`. -/
structure OpenShiftClusterDocument where
  OpenShiftCluster : OpenShiftCluster
deriving DecidableEq, Repr

/-- Type `api.SubscriptionProperties`. -/
structure SubscriptionProperties where
  TenantID : String
deriving DecidableEq, Repr

/-- Type `api.Subscription`. -/
structure Subscription where
  Properties : SubscriptionProperties
deriving DecidableEq, Repr

/-- Type `api.SubscriptionDocument`. -/
structure SubscriptionDocument where
  ID : String
  Subscription : Subscription
deriving DecidableEq, Repr

/-- Type `api.SecretLocation`. -/
structure SecretLocation where
  Namespace : String
  Name : String
deriving DecidableEq, Repr

/-- Type `api.PlatformWorkloadIdentityRole` (the fields read here). -/
structure PlatformWorkloadIdentityRole where
  OperatorName : String
  SecretLocation : SecretLocation
deriving DecidableEq, Repr

/-- The role service held by the manager. Its method
`GetPlatformWorkloadIdentityRolesByRoleName()` is declared outside this file;
the map it returns is carried as a field. -/
structure PlatformWorkloadIdentityRolesByVersion where
  GetPlatformWorkloadIdentityRolesByRoleName : GoMap PlatformWorkloadIdentityRole
deriving DecidableEq, Repr

/-- The receiver `manager` (the fields read here). -/
structure manager where
  doc : OpenShiftClusterDocument
  subscriptionDoc : SubscriptionDocument
  platformWorkloadIdentityRolesByVersion : PlatformWorkloadIdentityRolesByVersion
deriving DecidableEq, Repr

/-! ## Constants -/

/-- Path at which the federated token is mounted. -/
def azureFederatedTokenFileLocation : String := "/var/run/secrets/openshift/serviceaccount/token"

/-- Namespace of the cloud credential operator secret. -/
def ccoSecretNamespace : String := "openshift-cloud-credential-operator"

/-- Name of the cloud credential operator secret. -/
def ccoSecretName : String := "azure-credentials"

/-- Key of the cloud credential operator secret in the output collection. -/
def ccoSecretFilename : String := "azure-ad-pod-identity-webhook-config.yaml"

/-- Name of the authentication config object. -/
def authenticationConfigName : String := "cluster"

/-- Key of the authentication config in the output collection. -/
def authenticationConfigFilename : String := "cluster-authentication-02-config.yaml"

/-! ## The four functions -/

/-- Function `generatePlatformWorkloadIdentitySecrets`: one secret for each declared
identity whose operator name is a key of the role map, in declaration order. -/
def generatePlatformWorkloadIdentitySecrets (m : manager) : List Secret × Option GoError :=
  let subscriptionId := m.subscriptionDoc.ID
  let tenantId := m.subscriptionDoc.Subscription.Properties.TenantID
  let region := m.doc.OpenShiftCluster.Location
  let roles := m.platformWorkloadIdentityRolesByVersion.GetPlatformWorkloadIdentityRolesByRoleName
  let secrets : List Secret :=
    m.doc.OpenShiftCluster.Properties.PlatformWorkloadIdentityProfile.PlatformWorkloadIdentities.foldl
      (fun secrets identity =>
        match roles.get identity.OperatorName with
        | some role =>
          secrets ++ [{
            TypeMeta := {
              APIVersion := corev1SchemeGroupVersionIdentifier
              Kind := "Secret" }
            ObjectMeta := {
              Namespace := role.SecretLocation.Namespace
              Name := role.SecretLocation.Name }
            Data := []
            Type_ := corev1SecretTypeOpaque
            StringData := [
              ("azure_client_id", identity.ClientID),
              ("azure_subscription_id", subscriptionId),
              ("azure_tenant_id", tenantId),
              ("azure_region", region),
              ("azure_federated_token_file", azureFederatedTokenFileLocation)] }]
        | none => secrets)
      []
  (secrets, none)

/-- Function `generateCloudCredentialOperatorSecret`. -/
def generateCloudCredentialOperatorSecret (m : manager) : Option Secret × Option GoError :=
  let tenantId := m.subscriptionDoc.Subscription.Properties.TenantID
  (some {
    TypeMeta := {
      APIVersion := corev1SchemeGroupVersionIdentifier
      Kind := "Secret" }
    ObjectMeta := {
      Namespace := ccoSecretNamespace
      Name := ccoSecretName }
    Data := []
    Type_ := corev1SecretTypeOpaque
    StringData := [("azure_tenant_id", tenantId)] }, none)

/-- Function `generateAuthenticationConfig`. -/
def generateAuthenticationConfig (m : manager) : Option Authentication × Option GoError :=
  let oidcIssuer := m.doc.OpenShiftCluster.Properties.ClusterProfile.OIDCIssuer
  match oidcIssuer with
  | none => (none, some "oidcIssuer not present in clusterdoc")
  | some issuer =>
    (some {
      TypeMeta := {
        APIVersion := configv1SchemeGroupVersionIdentifier
        Kind := "Authentication" }
      ObjectMeta := {
        Namespace := ""
        Name := authenticationConfigName }
      Spec := { ServiceAccountIssuer := issuer } }, none)

/-- The key `fmt.Sprintf("%s-%s-credentials.yaml", namespace, name)`. -/
def credentialsKey (namespace_ name : String) : String :=
  namespace_ ++ "-" ++ name ++ "-credentials.yaml"

/-- Function `generateWorkloadIdentityResources`. -/
def generateWorkloadIdentityResources (m : manager) : Option (GoMap Object) × Option GoError :=
  if !m.doc.OpenShiftCluster.UsesWorkloadIdentity then
    (none, some "generateWorkloadIdentityResources called for a CSP cluster")
  else
    let resources : GoMap Object := GoMap.empty
    match generatePlatformWorkloadIdentitySecrets m with
    | (_, some err) => (none, some err)
    | (platformWorkloadIdentitySecrets, none) =>
      let resources := platformWorkloadIdentitySecrets.foldl
        (fun resources secret =>
          let key := credentialsKey secret.ObjectMeta.Namespace secret.ObjectMeta.Name
          resources.set key (Object.secret (some secret)))
        resources
      match generateCloudCredentialOperatorSecret m with
      | (_, some err) => (none, some err)
      | (cloudCredentialOperatorSecret, none) =>
        let resources := resources.set ccoSecretFilename (Object.secret cloudCredentialOperatorSecret)
        match generateAuthenticationConfig m with
        | (_, some err) => (none, some err)
        | (authenticationConfig, none) =>
          let resources := resources.set authenticationConfigFilename
            (Object.authentication authenticationConfig)
          (some resources, none)

/-! ## Auxiliary definitions used to state the properties -/

/-- The identity secret described for a declared identity and the role descriptor
found for it: an opaque `v1` secret at the descriptor's location carrying the five
credential fields. -/
def platformWorkloadIdentitySecret (m : manager) (identity : PlatformWorkloadIdentity)
    (role : PlatformWorkloadIdentityRole) : Secret :=
  { TypeMeta := { APIVersion := "v1", Kind := "Secret" }
    ObjectMeta := { Namespace := role.SecretLocation.Namespace, Name := role.SecretLocation.Name }
    Data := []
    Type_ := "Opaque"
    StringData := [
      ("azure_client_id", identity.ClientID),
      ("azure_subscription_id", m.subscriptionDoc.ID),
      ("azure_tenant_id", m.subscriptionDoc.Subscription.Properties.TenantID),
      ("azure_region", m.doc.OpenShiftCluster.Location),
      ("azure_federated_token_file", "/var/run/secrets/openshift/serviceaccount/token")] }

/-- The declared identities of the cluster record. -/
def declaredIdentities (m : manager) : List PlatformWorkloadIdentity :=
  m.doc.OpenShiftCluster.Properties.PlatformWorkloadIdentityProfile.PlatformWorkloadIdentities

/-- The role catalog, keyed by operator name. -/
def roleCatalog (m : manager) : GoMap PlatformWorkloadIdentityRole :=
  m.platformWorkloadIdentityRolesByVersion.GetPlatformWorkloadIdentityRolesByRoleName

/-- An identity is matched when its operator name is a key of the role catalog. -/
def isMatched (m : manager) (identity : PlatformWorkloadIdentity) : Bool :=
  decide (identity.OperatorName ∈ (roleCatalog m).keys)

/-- The declared identities that are matched, in declaration order. -/
def matchedIdentities (m : manager) : List PlatformWorkloadIdentity :=
  (declaredIdentities m).filter (isMatched m)

/-- The same manager with another list of declared identities. -/
def withIdentities (m : manager) (identities : List PlatformWorkloadIdentity) : manager :=
  { m with doc := { OpenShiftCluster := { m.doc.OpenShiftCluster with
      Properties := { m.doc.OpenShiftCluster.Properties with
        PlatformWorkloadIdentityProfile := { PlatformWorkloadIdentities := identities } } } } }

/-- The key under which the secret of a matched identity is stored; `none` for an
unmatched identity. -/
def identityKey (m : manager) (identity : PlatformWorkloadIdentity) : Option String :=
  ((roleCatalog m).get identity.OperatorName).map
    (fun role => credentialsKey role.SecretLocation.Namespace role.SecretLocation.Name)

/-- The keys of the matched identities, in declaration order, with repetitions. -/
def matchedKeys (m : manager) : List String :=
  (declaredIdentities m).filterMap (identityKey m)

/-- The manager of the worked example: one identity `cloud-provider` with client id `abc`,
the role `cloud-provider` located at `openshift-cloud-controller-manager/azure-credentials`,
subscription `sub1` of tenant `tenant1`, location `eastus`. -/
def exampleManager (uses : Bool) (issuer : Option String) : manager :=
  { doc := { OpenShiftCluster := {
      Location := "eastus"
      Properties := {
        ClusterProfile := { OIDCIssuer := issuer }
        PlatformWorkloadIdentityProfile := { PlatformWorkloadIdentities := [
          { OperatorName := "cloud-provider", ClientID := "abc" }] } }
      UsesWorkloadIdentity := uses } }
    subscriptionDoc := { ID := "sub1", Subscription := { Properties := { TenantID := "tenant1" } } }
    platformWorkloadIdentityRolesByVersion := { GetPlatformWorkloadIdentityRolesByRoleName := [
      ("cloud-provider", { OperatorName := "cloud-provider"
                           SecretLocation := { Namespace := "openshift-cloud-controller-manager"
                                               Name := "azure-credentials" } })] } }

/-- The merge loop of `generateWorkloadIdentityResources`: every secret is assigned
under its credentials key, in list order. -/
def mergeSecrets (resources : GoMap Object) (secrets : List Secret) : GoMap Object :=
  secrets.foldl
    (fun resources secret =>
      resources.set (credentialsKey secret.ObjectMeta.Namespace secret.ObjectMeta.Name)
        (Object.secret (some secret)))
    resources

/-- The authentication object declaring an issuer. -/
def authenticationFor (issuer : String) : Authentication :=
  { TypeMeta := { APIVersion := "config.openshift.io/v1", Kind := "Authentication" }
    ObjectMeta := { Namespace := "", Name := "cluster" }
    Spec := { ServiceAccountIssuer := issuer } }

/-- The output collection of the worked example with issuer
`https://issuer.example/cluster123`. -/
def exampleResources : GoMap Object := [
  ("openshift-cloud-controller-manager-azure-credentials-credentials.yaml",
    Object.secret (some
      { TypeMeta := { APIVersion := "v1", Kind := "Secret" }
        ObjectMeta := { Namespace := "openshift-cloud-controller-manager"
                        Name := "azure-credentials" }
        Data := []
        StringData := [
          ("azure_client_id", "abc"),
          ("azure_subscription_id", "sub1"),
          ("azure_tenant_id", "tenant1"),
          ("azure_region", "eastus"),
          ("azure_federated_token_file", "/var/run/secrets/openshift/serviceaccount/token")]
        Type_ := "Opaque" })),
  ("azure-ad-pod-identity-webhook-config.yaml",
    Object.secret (some
      { TypeMeta := { APIVersion := "v1", Kind := "Secret" }
        ObjectMeta := { Namespace := "openshift-cloud-credential-operator"
                        Name := "azure-credentials" }
        Data := []
        StringData := [("azure_tenant_id", "tenant1")]
        Type_ := "Opaque" })),
  ("cluster-authentication-02-config.yaml",
    Object.authentication (some
      { TypeMeta := { APIVersion := "config.openshift.io/v1", Kind := "Authentication" }
        ObjectMeta := { Namespace := "", Name := "cluster" }
        Spec := { ServiceAccountIssuer := "https://issuer.example/cluster123" } }))]

/-- The worked example with the identity `cloud-provider` declared twice, with client
ids `abc` and `def`. -/
def duplicateIdentityManager : manager :=
  { doc := { OpenShiftCluster := {
      Location := "eastus"
      Properties := {
        ClusterProfile := { OIDCIssuer := some "https://issuer.example/cluster123" }
        PlatformWorkloadIdentityProfile := { PlatformWorkloadIdentities := [
          { OperatorName := "cloud-provider", ClientID := "abc" },
          { OperatorName := "cloud-provider", ClientID := "def" }] } }
      UsesWorkloadIdentity := true } }
    subscriptionDoc := { ID := "sub1", Subscription := { Properties := { TenantID := "tenant1" } } }
    platformWorkloadIdentityRolesByVersion := { GetPlatformWorkloadIdentityRolesByRoleName := [
      ("cloud-provider", { OperatorName := "cloud-provider"
                           SecretLocation := { Namespace := "openshift-cloud-controller-manager"
                                               Name := "azure-credentials" } })] } }

/-- The output collection of `duplicateIdentityManager`: the one identity secret carries
the client id `def`. -/
def duplicateIdentityResources : GoMap Object := [
  ("openshift-cloud-controller-manager-azure-credentials-credentials.yaml",
    Object.secret (some
      { TypeMeta := { APIVersion := "v1", Kind := "Secret" }
        ObjectMeta := { Namespace := "openshift-cloud-controller-manager"
                        Name := "azure-credentials" }
        Data := []
        StringData := [
          ("azure_client_id", "def"),
          ("azure_subscription_id", "sub1"),
          ("azure_tenant_id", "tenant1"),
          ("azure_region", "eastus"),
          ("azure_federated_token_file", "/var/run/secrets/openshift/serviceaccount/token")]
        Type_ := "Opaque" })),
  ("azure-ad-pod-identity-webhook-config.yaml",
    Object.secret (some
      { TypeMeta := { APIVersion := "v1", Kind := "Secret" }
        ObjectMeta := { Namespace := "openshift-cloud-credential-operator"
                        Name := "azure-credentials" }
        Data := []
        StringData := [("azure_tenant_id", "tenant1")]
        Type_ := "Opaque" })),
  ("cluster-authentication-02-config.yaml",
    Object.authentication (some
      { TypeMeta := { APIVersion := "config.openshift.io/v1", Kind := "Authentication" }
        ObjectMeta := { Namespace := "", Name := "cluster" }
        Spec := { ServiceAccountIssuer := "https://issuer.example/cluster123" } }))]

/-- The worked example with a role catalog that places the secret of `cloud-provider` at
the location of the operator secret, `openshift-cloud-credential-operator/azure-credentials`. -/
def operatorLocationManager : manager :=
  { doc := { OpenShiftCluster := {
      Location := "eastus"
      Properties := {
        ClusterProfile := { OIDCIssuer := some "https://issuer.example/cluster123" }
        PlatformWorkloadIdentityProfile := { PlatformWorkloadIdentities := [
          { OperatorName := "cloud-provider", ClientID := "abc" }] } }
      UsesWorkloadIdentity := true } }
    subscriptionDoc := { ID := "sub1", Subscription := { Properties := { TenantID := "tenant1" } } }
    platformWorkloadIdentityRolesByVersion := { GetPlatformWorkloadIdentityRolesByRoleName := [
      ("cloud-provider", { OperatorName := "cloud-provider"
                           SecretLocation := { Namespace := "openshift-cloud-credential-operator"
                                               Name := "azure-credentials" } })] } }

/-- The output collection of `operatorLocationManager`. -/
def operatorLocationResources : GoMap Object := [
  ("openshift-cloud-credential-operator-azure-credentials-credentials.yaml",
    Object.secret (some
      { TypeMeta := { APIVersion := "v1", Kind := "Secret" }
        ObjectMeta := { Namespace := "openshift-cloud-credential-operator"
                        Name := "azure-credentials" }
        Data := []
        StringData := [
          ("azure_client_id", "abc"),
          ("azure_subscription_id", "sub1"),
          ("azure_tenant_id", "tenant1"),
          ("azure_region", "eastus"),
          ("azure_federated_token_file", "/var/run/secrets/openshift/serviceaccount/token")]
        Type_ := "Opaque" })),
  ("azure-ad-pod-identity-webhook-config.yaml",
    Object.secret (some
      { TypeMeta := { APIVersion := "v1", Kind := "Secret" }
        ObjectMeta := { Namespace := "openshift-cloud-credential-operator"
                        Name := "azure-credentials" }
        Data := []
        StringData := [("azure_tenant_id", "tenant1")]
        Type_ := "Opaque" })),
  ("cluster-authentication-02-config.yaml",
    Object.authentication (some
      { TypeMeta := { APIVersion := "config.openshift.io/v1", Kind := "Authentication" }
        ObjectMeta := { Namespace := "", Name := "cluster" }
        Spec := { ServiceAccountIssuer := "https://issuer.example/cluster123" } }))]

/-- Two identities of distinct operators whose roles have the distinct secret locations
`a-b/c` and `a/b-c`; both locations give the key `a-b-c-credentials.yaml`. -/
def hyphenCollisionManager : manager :=
  { doc := { OpenShiftCluster := {
      Location := "eastus"
      Properties := {
        ClusterProfile := { OIDCIssuer := some "https://issuer.example/cluster123" }
        PlatformWorkloadIdentityProfile := { PlatformWorkloadIdentities := [
          { OperatorName := "first", ClientID := "abc" },
          { OperatorName := "second", ClientID := "def" }] } }
      UsesWorkloadIdentity := true } }
    subscriptionDoc := { ID := "sub1", Subscription := { Properties := { TenantID := "tenant1" } } }
    platformWorkloadIdentityRolesByVersion := { GetPlatformWorkloadIdentityRolesByRoleName := [
      ("first", { OperatorName := "first"
                  SecretLocation := { Namespace := "a-b", Name := "c" } }),
      ("second", { OperatorName := "second"
                   SecretLocation := { Namespace := "a", Name := "b-c" } })] } }

/-- The output collection of `hyphenCollisionManager`: the one identity secret is that of
the identity `second`. -/
def hyphenCollisionResources : GoMap Object := [
  ("a-b-c-credentials.yaml",
    Object.secret (some
      { TypeMeta := { APIVersion := "v1", Kind := "Secret" }
        ObjectMeta := { Namespace := "a", Name := "b-c" }
        Data := []
        StringData := [
          ("azure_client_id", "def"),
          ("azure_subscription_id", "sub1"),
          ("azure_tenant_id", "tenant1"),
          ("azure_region", "eastus"),
          ("azure_federated_token_file", "/var/run/secrets/openshift/serviceaccount/token")]
        Type_ := "Opaque" })),
  ("azure-ad-pod-identity-webhook-config.yaml",
    Object.secret (some
      { TypeMeta := { APIVersion := "v1", Kind := "Secret" }
        ObjectMeta := { Namespace := "openshift-cloud-credential-operator"
                        Name := "azure-credentials" }
        Data := []
        StringData := [("azure_tenant_id", "tenant1")]
        Type_ := "Opaque" })),
  ("cluster-authentication-02-config.yaml",
    Object.authentication (some
      { TypeMeta := { APIVersion := "config.openshift.io/v1", Kind := "Authentication" }
        ObjectMeta := { Namespace := "", Name := "cluster" }
        Spec := { ServiceAccountIssuer := "https://issuer.example/cluster123" } }))]

/-- Whether an object of the collection is an Authentication object. -/
def Object.isAuthentication : Object → Bool
  | Object.authentication _ => true
  | Object.secret _ => false

/-! ## The derivation steps in an arbitrary order -/

/-- The three derivation steps of the generator. -/
inductive DerivationStep where
  | identitySecrets
  | operatorSecret
  | authenticationConfig
deriving DecidableEq, Repr

/-- One derivation step followed by the merge of its output into the collection, as in
the body of `generateWorkloadIdentityResources`. -/
def runStep (m : manager) (resources : GoMap Object) :
    DerivationStep → Except GoError (GoMap Object)
  | DerivationStep.identitySecrets =>
    match generatePlatformWorkloadIdentitySecrets m with
    | (_, some err) => Except.error err
    | (platformWorkloadIdentitySecrets, none) =>
      Except.ok (platformWorkloadIdentitySecrets.foldl
        (fun resources secret =>
          let key := credentialsKey secret.ObjectMeta.Namespace secret.ObjectMeta.Name
          resources.set key (Object.secret (some secret)))
        resources)
  | DerivationStep.operatorSecret =>
    match generateCloudCredentialOperatorSecret m with
    | (_, some err) => Except.error err
    | (cloudCredentialOperatorSecret, none) =>
      Except.ok (resources.set ccoSecretFilename (Object.secret cloudCredentialOperatorSecret))
  | DerivationStep.authenticationConfig =>
    match generateAuthenticationConfig m with
    | (_, some err) => Except.error err
    | (authenticationConfig, none) =>
      Except.ok (resources.set authenticationConfigFilename
        (Object.authentication authenticationConfig))

/-- The steps of a list run in sequence, stopping at the first error. -/
def runSteps (m : manager) : List DerivationStep → GoMap Object → Except GoError (GoMap Object)
  | [], resources => Except.ok resources
  | step :: rest, resources =>
    match runStep m resources step with
    | Except.error err => Except.error err
    | Except.ok resources => runSteps m rest resources

/-- The generator with its derivation steps run and merged in a given order: the
applicability check, then the steps, no collection on the first error. -/
def generateInOrder (m : manager) (order : List DerivationStep) :
    Option (GoMap Object) × Option GoError :=
  if !m.doc.OpenShiftCluster.UsesWorkloadIdentity then
    (none, some "generateWorkloadIdentityResources called for a CSP cluster")
  else
    match runSteps m order GoMap.empty with
    | Except.error err => (none, some err)
    | Except.ok resources => (some resources, none)

/-- The order of the implementation. -/
def implementedOrder : List DerivationStep :=
  [DerivationStep.identitySecrets, DerivationStep.operatorSecret,
    DerivationStep.authenticationConfig]

/-- The worked example with another role catalog: an entry for the undeclared operator
`ingress` comes first, and the role found for `cloud-provider` has the same secret
location but another operator name of its own. -/
def otherCatalogManager : manager :=
  { doc := { OpenShiftCluster := {
      Location := "eastus"
      Properties := {
        ClusterProfile := { OIDCIssuer := some "https://issuer.example/cluster123" }
        PlatformWorkloadIdentityProfile := { PlatformWorkloadIdentities := [
          { OperatorName := "cloud-provider", ClientID := "abc" }] } }
      UsesWorkloadIdentity := true } }
    subscriptionDoc := { ID := "sub1", Subscription := { Properties := { TenantID := "tenant1" } } }
    platformWorkloadIdentityRolesByVersion := { GetPlatformWorkloadIdentityRolesByRoleName := [
      ("ingress", { OperatorName := "ingress"
                    SecretLocation := { Namespace := "openshift-ingress-operator"
                                        Name := "cloud-credentials" } }),
      ("cloud-provider", { OperatorName := "cloud-controller-manager"
                           SecretLocation := { Namespace := "openshift-cloud-controller-manager"
                                               Name := "azure-credentials" } })] } }

/-! ## Go maps: lookup, assignment, keys -/

namespace GoMap

variable {β : Type}

theorem get_set_self (m : GoMap β) (k : String) (v : β) : (m.set k v).get k = some v := by
  induction m with
  | nil => simp [set, get]
  | cons p rest ih =>
    obtain ⟨k', v'⟩ := p
    by_cases h : k' = k <;> simp [set, get, h, ih]

theorem get_set_of_ne (m : GoMap β) (k k' : String) (v : β) (h : k' ≠ k) :
    (m.set k v).get k' = m.get k' := by
  induction m with
  | nil => simp [set, get, Ne.symm h]
  | cons p rest ih =>
    obtain ⟨k₀, v₀⟩ := p
    by_cases h₀ : k₀ = k
    · subst h₀; simp [set, get, Ne.symm h]
    · simp [set, get, h₀, ih]

theorem mem_keys_set (m : GoMap β) (k k' : String) (v : β) :
    k' ∈ (m.set k v).keys ↔ k' = k ∨ k' ∈ m.keys := by
  induction m with
  | nil => simp [set, keys]
  | cons p rest ih =>
    obtain ⟨k₀, v₀⟩ := p
    by_cases h₀ : k₀ = k
    · subst h₀; simp [set, keys]
    · simp only [keys] at ih
      simp only [set, h₀, if_false, keys, List.map_cons, List.mem_cons, ih]
      tauto

theorem nodup_keys_set (m : GoMap β) (k : String) (v : β) (h : m.keys.Nodup) :
    (m.set k v).keys.Nodup := by
  induction m with
  | nil => simp [set, keys]
  | cons p rest ih =>
    obtain ⟨k₀, v₀⟩ := p
    have h' : k₀ ∉ keys rest ∧ (keys rest).Nodup := by simpa [keys] using h
    by_cases h₀ : k₀ = k
    · subst h₀; simpa [set, keys] using h
    · have hmem : k₀ ∉ keys (set rest k v) := by
        rw [mem_keys_set]; exact fun hc => hc.elim h₀ h'.1
      have hnd := ih h'.2
      simp only [keys] at hmem hnd
      simp only [set, h₀, if_false, keys, List.map_cons, List.nodup_cons]
      exact ⟨hmem, hnd⟩

theorem get_isSome_iff_mem_keys (m : GoMap β) (k : String) :
    (m.get k).isSome = true ↔ k ∈ m.keys := by
  induction m with
  | nil => simp [get, keys]
  | cons p rest ih =>
    obtain ⟨k₀, v₀⟩ := p
    by_cases h₀ : k₀ = k
    · subst h₀; simp [get, keys]
    · simp only [keys] at ih
      simp [get, keys, h₀, ih, Ne.symm h₀]

theorem len_eq_card_keys (m : GoMap β) (h : m.keys.Nodup) : m.len = m.keys.toFinset.card := by
  rw [List.toFinset_card_of_nodup h]; simp [len, keys]

end GoMap

/-! ## Shape of the results -/

theorem foldl_append_matched {α β γ : Type} (look : α → Option γ) (mk : α → γ → β)
    (l : List α) (acc : List β) :
    l.foldl (fun secrets a =>
        match look a with
        | some r => secrets ++ [mk a r]
        | none => secrets) acc
      = acc ++ l.filterMap (fun a => (look a).map (mk a)) := by
  induction l generalizing acc with
  | nil => simp
  | cons a l ih =>
    simp only [List.foldl_cons, List.filterMap_cons, ih]
    cases look a <;> simp

theorem generatePlatformWorkloadIdentitySecrets_eq (m : manager) :
    generatePlatformWorkloadIdentitySecrets m =
      ((declaredIdentities m).filterMap (fun identity =>
        ((roleCatalog m).get identity.OperatorName).map
          (platformWorkloadIdentitySecret m identity)), none) := by
  have h := foldl_append_matched (fun identity : PlatformWorkloadIdentity =>
      (roleCatalog m).get identity.OperatorName)
    (fun identity role => platformWorkloadIdentitySecret m identity role)
    (declaredIdentities m) []
  simp only [List.nil_append] at h
  rw [← h]
  simp only [generatePlatformWorkloadIdentitySecrets, declaredIdentities, roleCatalog,
    platformWorkloadIdentitySecret, corev1SchemeGroupVersionIdentifier, corev1SecretTypeOpaque,
    azureFederatedTokenFileLocation]
  congr 2
  funext secrets identity
  cases m.platformWorkloadIdentityRolesByVersion.GetPlatformWorkloadIdentityRolesByRoleName.get
    identity.OperatorName <;> rfl

theorem generateWorkloadIdentityResources_eq (m : manager) :
    generateWorkloadIdentityResources m =
      if m.doc.OpenShiftCluster.UsesWorkloadIdentity = false then
        (none, some "generateWorkloadIdentityResources called for a CSP cluster")
      else
        match m.doc.OpenShiftCluster.Properties.ClusterProfile.OIDCIssuer with
        | none => (none, some "oidcIssuer not present in clusterdoc")
        | some issuer =>
          (some (((mergeSecrets [] (generatePlatformWorkloadIdentitySecrets m).1).set
              ccoSecretFilename (Object.secret (generateCloudCredentialOperatorSecret m).1)).set
              authenticationConfigFilename (Object.authentication (some (authenticationFor issuer)))),
            none) := by
  unfold generateWorkloadIdentityResources
  cases hu : m.doc.OpenShiftCluster.UsesWorkloadIdentity
  · simp
  · cases hi : m.doc.OpenShiftCluster.Properties.ClusterProfile.OIDCIssuer <;>
      simp [generatePlatformWorkloadIdentitySecrets, generateCloudCredentialOperatorSecret,
        generateAuthenticationConfig, hi, mergeSecrets, GoMap.empty, authenticationFor,
        configv1SchemeGroupVersionIdentifier, authenticationConfigName]

theorem mem_keys_mergeSecrets (secrets : List Secret) (resources : GoMap Object) (k : String) :
    k ∈ (mergeSecrets resources secrets).keys ↔
      k ∈ resources.keys ∨
        ∃ secret ∈ secrets, k = credentialsKey secret.ObjectMeta.Namespace secret.ObjectMeta.Name := by
  induction secrets generalizing resources with
  | nil => simp [mergeSecrets]
  | cons s rest ih =>
    have hstep : mergeSecrets resources (s :: rest) =
        mergeSecrets (resources.set (credentialsKey s.ObjectMeta.Namespace s.ObjectMeta.Name)
          (Object.secret (some s))) rest := rfl
    rw [hstep, ih, GoMap.mem_keys_set]
    simp only [List.mem_cons, exists_eq_or_imp]
    tauto

theorem nodup_keys_mergeSecrets (secrets : List Secret) (resources : GoMap Object)
    (h : resources.keys.Nodup) : (mergeSecrets resources secrets).keys.Nodup := by
  induction secrets generalizing resources with
  | nil => simpa [mergeSecrets] using h
  | cons s rest ih => exact ih _ (GoMap.nodup_keys_set _ _ _ h)

/-- The merge keeps, under a key, the last secret of the list with that key, and the
earlier value of the map when no secret of the list has it. -/
theorem get_mergeSecrets (secrets : List Secret) (resources : GoMap Object) (k : String) :
    (mergeSecrets resources secrets).get k =
      match secrets.reverse.find?
          (fun secret => credentialsKey secret.ObjectMeta.Namespace secret.ObjectMeta.Name = k) with
      | some secret => some (Object.secret (some secret))
      | none => resources.get k := by
  induction secrets generalizing resources with
  | nil => simp [mergeSecrets]
  | cons s rest ih =>
    have hstep : mergeSecrets resources (s :: rest) =
        mergeSecrets (resources.set (credentialsKey s.ObjectMeta.Namespace s.ObjectMeta.Name)
          (Object.secret (some s))) rest := rfl
    rw [hstep, ih, List.reverse_cons, List.find?_append]
    cases hrest : rest.reverse.find?
        (fun secret => decide (credentialsKey secret.ObjectMeta.Namespace secret.ObjectMeta.Name = k)) with
    | some s' => simp
    | none =>
      by_cases hk : credentialsKey s.ObjectMeta.Namespace s.ObjectMeta.Name = k
      · subst hk; simp [GoMap.get_set_self]
      · simp [hk, GoMap.get_set_of_ne _ _ _ _ (Ne.symm hk)]

theorem credentialsKey_ne_ccoSecretFilename (namespace_ name : String) :
    credentialsKey namespace_ name ≠ ccoSecretFilename := by
  intro h
  have h2 := congrArg (fun s : String => s.data.reverse.take 6) h
  simp only [credentialsKey, ccoSecretFilename, String.data_append, List.reverse_append] at h2
  rw [List.take_append_of_le_length (by decide)] at h2
  revert h2
  decide

theorem credentialsKey_ne_authenticationConfigFilename (namespace_ name : String) :
    credentialsKey namespace_ name ≠ authenticationConfigFilename := by
  intro h
  have h2 := congrArg (fun s : String => s.data.reverse.take 6) h
  simp only [credentialsKey, authenticationConfigFilename, String.data_append,
    List.reverse_append] at h2
  rw [List.take_append_of_le_length (by decide)] at h2
  revert h2
  decide

theorem ccoSecretFilename_ne_authenticationConfigFilename :
    ccoSecretFilename ≠ authenticationConfigFilename := by decide

/-- A successful call returned the merge of the three derivations. -/
theorem eq_of_success (m : manager) (resources : GoMap Object)
    (h : generateWorkloadIdentityResources m = (some resources, none)) :
    m.doc.OpenShiftCluster.UsesWorkloadIdentity = true ∧
    ∃ issuer, m.doc.OpenShiftCluster.Properties.ClusterProfile.OIDCIssuer = some issuer ∧
      resources = ((mergeSecrets [] (generatePlatformWorkloadIdentitySecrets m).1).set
        ccoSecretFilename (Object.secret (generateCloudCredentialOperatorSecret m).1)).set
        authenticationConfigFilename (Object.authentication (some (authenticationFor issuer))) := by
  rw [generateWorkloadIdentityResources_eq] at h
  cases hu : m.doc.OpenShiftCluster.UsesWorkloadIdentity
  · simp [hu] at h
  · cases hi : m.doc.OpenShiftCluster.Properties.ClusterProfile.OIDCIssuer
    · simp [hu, hi] at h
    · simp only [hu, hi, Bool.true_eq_false, if_false, Prod.mk.injEq, Option.some.injEq,
        and_true] at h
      exact ⟨rfl, _, rfl, h.symm⟩

theorem map_credentialsKey_secrets (m : manager) :
    (generatePlatformWorkloadIdentitySecrets m).1.map
        (fun secret => credentialsKey secret.ObjectMeta.Namespace secret.ObjectMeta.Name) =
      matchedKeys m := by
  rw [generatePlatformWorkloadIdentitySecrets_eq]
  simp only [matchedKeys, identityKey, List.map_filterMap]
  congr 1
  funext identity
  cases hget : (roleCatalog m).get identity.OperatorName <;>
    simp [identityKey, hget, platformWorkloadIdentitySecret]

theorem isMatched_eq (m : manager) (identity : PlatformWorkloadIdentity) :
    isMatched m identity = ((roleCatalog m).get identity.OperatorName).isSome := by
  rw [Bool.eq_iff_iff, GoMap.get_isSome_iff_mem_keys]
  simp [isMatched]

theorem get_eq_none_of_not_isMatched (m : manager) (identity : PlatformWorkloadIdentity)
    (h : isMatched m identity = false) : (roleCatalog m).get identity.OperatorName = none := by
  rw [isMatched_eq] at h
  cases hget : (roleCatalog m).get identity.OperatorName with
  | none => rfl
  | some role => simp [hget] at h

theorem length_matchedKeys (m : manager) :
    (matchedKeys m).length = (matchedIdentities m).length := by
  unfold matchedKeys matchedIdentities
  induction declaredIdentities m with
  | nil => rfl
  | cons identity rest ih =>
    cases hget : (roleCatalog m).get identity.OperatorName <;>
      simp [List.filterMap_cons, List.filter_cons, identityKey, isMatched_eq, hget] <;>
      simpa [identityKey] using ih

theorem mem_keys_of_success (m : manager) (resources : GoMap Object)
    (h : generateWorkloadIdentityResources m = (some resources, none)) (k : String) :
    k ∈ resources.keys ↔
      k ∈ matchedKeys m ∨ k = ccoSecretFilename ∨ k = authenticationConfigFilename := by
  obtain ⟨_, issuer, _, rfl⟩ := eq_of_success m resources h
  rw [GoMap.mem_keys_set, GoMap.mem_keys_set, mem_keys_mergeSecrets, ← map_credentialsKey_secrets]
  simp only [GoMap.keys, List.map_nil, List.not_mem_nil, false_or, List.mem_map]
  constructor
  · rintro (h | h | ⟨s, hs, rfl⟩)
    · exact Or.inr (Or.inr h)
    · exact Or.inr (Or.inl h)
    · exact Or.inl ⟨s, hs, rfl⟩
  · rintro (⟨s, hs, rfl⟩ | h | h)
    · exact Or.inr (Or.inr ⟨s, hs, rfl⟩)
    · exact Or.inr (Or.inl h)
    · exact Or.inl h

theorem nodup_keys_of_success (m : manager) (resources : GoMap Object)
    (h : generateWorkloadIdentityResources m = (some resources, none)) :
    resources.keys.Nodup := by
  obtain ⟨_, issuer, _, rfl⟩ := eq_of_success m resources h
  exact GoMap.nodup_keys_set _ _ _ (GoMap.nodup_keys_set _ _ _
    (nodup_keys_mergeSecrets _ _ (by simp [GoMap.keys])))

theorem not_mem_matchedKeys_fixed (m : manager) :
    ccoSecretFilename ∉ matchedKeys m ∧ authenticationConfigFilename ∉ matchedKeys m := by
  constructor <;>
  · intro hmem
    simp only [matchedKeys, identityKey, List.mem_filterMap, Option.map_eq_some'] at hmem
    obtain ⟨identity, _, role, _, hk⟩ := hmem
    first
      | exact credentialsKey_ne_ccoSecretFilename _ _ hk
      | exact credentialsKey_ne_authenticationConfigFilename _ _ hk

theorem len_of_success (m : manager) (resources : GoMap Object)
    (h : generateWorkloadIdentityResources m = (some resources, none)) :
    resources.len = (matchedKeys m).dedup.length + 2 := by
  have hnd := nodup_keys_of_success m resources h
  have hfin : resources.keys.toFinset =
      insert authenticationConfigFilename (insert ccoSecretFilename (matchedKeys m).toFinset) := by
    ext k
    simp only [List.mem_toFinset, Finset.mem_insert, mem_keys_of_success m resources h k]
    tauto
  have h1 : ccoSecretFilename ∉ (matchedKeys m).toFinset := by
    simpa using (not_mem_matchedKeys_fixed m).1
  have h2 : authenticationConfigFilename ∉ insert ccoSecretFilename (matchedKeys m).toFinset := by
    simp only [Finset.mem_insert, List.mem_toFinset, not_or]
    exact ⟨Ne.symm ccoSecretFilename_ne_authenticationConfigFilename,
      (not_mem_matchedKeys_fixed m).2⟩
  rw [GoMap.len_eq_card_keys _ hnd, hfin, Finset.card_insert_of_not_mem h2,
    Finset.card_insert_of_not_mem h1, List.card_toFinset]

/-! ## Error paths of `generateWorkloadIdentityResources` -/

/-- C1: when the cluster record does not use workload identity,
`generateWorkloadIdentityResources` returns the not-applicable error and the `nil`
collection, whatever the identities, role catalog, subscription record and issuer are. -/
theorem generateWorkloadIdentityResources_not_applicable (m : manager)
    (h : m.doc.OpenShiftCluster.UsesWorkloadIdentity = false) :
    generateWorkloadIdentityResources m =
      (none, some "generateWorkloadIdentityResources called for a CSP cluster") := by
  simp [generateWorkloadIdentityResources, h]

theorem generateWorkloadIdentityResources_not_applicable_witness :
    (exampleManager false none).doc.OpenShiftCluster.UsesWorkloadIdentity = false ∧
    generateWorkloadIdentityResources (exampleManager false none) =
      (none, some "generateWorkloadIdentityResources called for a CSP cluster") :=
  ⟨rfl, generateWorkloadIdentityResources_not_applicable (exampleManager false none) rfl⟩

/-- C2: when the cluster record uses workload identity and its OIDC issuer is `nil`,
`generateWorkloadIdentityResources` returns the missing-issuer error and the `nil`
collection, whatever the identities and the role catalog are. -/
theorem generateWorkloadIdentityResources_missing_issuer (m : manager)
    (hu : m.doc.OpenShiftCluster.UsesWorkloadIdentity = true)
    (hi : m.doc.OpenShiftCluster.Properties.ClusterProfile.OIDCIssuer = none) :
    generateWorkloadIdentityResources m = (none, some "oidcIssuer not present in clusterdoc") := by
  rw [generateWorkloadIdentityResources_eq]
  simp [hu, hi]

theorem generateWorkloadIdentityResources_missing_issuer_witness :
    (exampleManager true none).doc.OpenShiftCluster.UsesWorkloadIdentity = true ∧
    (exampleManager true none).doc.OpenShiftCluster.Properties.ClusterProfile.OIDCIssuer = none ∧
    generateWorkloadIdentityResources (exampleManager true none) =
      (none, some "oidcIssuer not present in clusterdoc") :=
  ⟨rfl, rfl, generateWorkloadIdentityResources_missing_issuer (exampleManager true none) rfl rfl⟩

/-- C3: `generateWorkloadIdentityResources` returns the `nil` error exactly when the
cluster record uses workload identity and the OIDC issuer is not `nil`; with an error
the collection is `nil`; without an error the collection is not `nil` and has both the
operator secret key and the authentication config key. -/
theorem generateWorkloadIdentityResources_atomic (m : manager) :
    ((generateWorkloadIdentityResources m).2 = none ↔
      (m.doc.OpenShiftCluster.UsesWorkloadIdentity = true ∧
        m.doc.OpenShiftCluster.Properties.ClusterProfile.OIDCIssuer ≠ none)) ∧
    ((generateWorkloadIdentityResources m).2 ≠ none →
      (generateWorkloadIdentityResources m).1 = none) ∧
    ((generateWorkloadIdentityResources m).2 = none →
      ∃ resources, (generateWorkloadIdentityResources m).1 = some resources ∧
        "azure-ad-pod-identity-webhook-config.yaml" ∈ resources.keys ∧
        "cluster-authentication-02-config.yaml" ∈ resources.keys) := by
  rw [generateWorkloadIdentityResources_eq]
  cases hu : m.doc.OpenShiftCluster.UsesWorkloadIdentity
  · simp
  · cases hi : m.doc.OpenShiftCluster.Properties.ClusterProfile.OIDCIssuer
    · simp
    · simp [GoMap.mem_keys_set, ccoSecretFilename, authenticationConfigFilename]

/-! ## Keys of the output collection -/

/-- C4: on success the keys of the returned collection are pairwise distinct and are
exactly the credentials keys of the catalog roles matched by some declared identity,
the operator secret key and the authentication config key. -/
theorem generateWorkloadIdentityResources_keys (m : manager) (resources : GoMap Object)
    (h : generateWorkloadIdentityResources m = (some resources, none)) :
    resources.keys.Nodup ∧
    ∀ k : String, k ∈ resources.keys ↔
      ((∃ identity ∈ m.doc.OpenShiftCluster.Properties.PlatformWorkloadIdentityProfile.PlatformWorkloadIdentities,
          ∃ role,
            m.platformWorkloadIdentityRolesByVersion.GetPlatformWorkloadIdentityRolesByRoleName.get
              identity.OperatorName = some role ∧
            k = role.SecretLocation.Namespace ++ "-" ++ role.SecretLocation.Name ++ "-credentials.yaml")
        ∨ k = "azure-ad-pod-identity-webhook-config.yaml"
        ∨ k = "cluster-authentication-02-config.yaml") := by
  rw [generateWorkloadIdentityResources_eq] at h
  cases hu : m.doc.OpenShiftCluster.UsesWorkloadIdentity
  · simp [hu] at h
  · cases hi : m.doc.OpenShiftCluster.Properties.ClusterProfile.OIDCIssuer
    · simp [hu, hi] at h
    · simp only [hu, hi, Bool.true_eq_false, if_false, Prod.mk.injEq, Option.some.injEq,
        and_true] at h
      subst h
      refine ⟨GoMap.nodup_keys_set _ _ _ (GoMap.nodup_keys_set _ _ _
        (nodup_keys_mergeSecrets _ _ (by simp [GoMap.keys]))), fun k => ?_⟩
      rw [GoMap.mem_keys_set, GoMap.mem_keys_set, mem_keys_mergeSecrets,
        generatePlatformWorkloadIdentitySecrets_eq]
      simp only [GoMap.keys, List.map_nil, List.not_mem_nil, false_or, List.mem_filterMap,
        Option.map_eq_some', declaredIdentities, roleCatalog, ccoSecretFilename,
        authenticationConfigFilename]
      constructor
      · rintro (h | h | ⟨s, ⟨identity, hid, role, hrole, rfl⟩, rfl⟩)
        · exact Or.inr (Or.inr h)
        · exact Or.inr (Or.inl h)
        · exact Or.inl ⟨identity, hid, role, hrole, rfl⟩
      · rintro (⟨identity, hid, role, hrole, rfl⟩ | h | h)
        · exact Or.inr (Or.inr ⟨_, ⟨identity, hid, role, hrole, rfl⟩, rfl⟩)
        · exact Or.inr (Or.inl h)
        · exact Or.inl h

theorem generateWorkloadIdentityResources_keys_witness :
    generateWorkloadIdentityResources (exampleManager true (some "https://issuer.example/cluster123")) =
      (some exampleResources, none) ∧
    (exampleResources.keys.Nodup ∧
    ∀ k : String, k ∈ exampleResources.keys ↔
      ((∃ identity ∈ (exampleManager true (some "https://issuer.example/cluster123")
            ).doc.OpenShiftCluster.Properties.PlatformWorkloadIdentityProfile.PlatformWorkloadIdentities,
          ∃ role,
            (exampleManager true (some "https://issuer.example/cluster123")
              ).platformWorkloadIdentityRolesByVersion.GetPlatformWorkloadIdentityRolesByRoleName.get
              identity.OperatorName = some role ∧
            k = role.SecretLocation.Namespace ++ "-" ++ role.SecretLocation.Name ++ "-credentials.yaml")
        ∨ k = "azure-ad-pod-identity-webhook-config.yaml"
        ∨ k = "cluster-authentication-02-config.yaml")) :=
  ⟨by decide,
   generateWorkloadIdentityResources_keys
    (exampleManager true (some "https://issuer.example/cluster123")) exampleResources (by decide)⟩

theorem mem_secrets_of_matched (m : manager) (identity : PlatformWorkloadIdentity)
    (role : PlatformWorkloadIdentityRole) (hid : identity ∈ declaredIdentities m)
    (hrole : (roleCatalog m).get identity.OperatorName = some role) :
    platformWorkloadIdentitySecret m identity role ∈
      (generatePlatformWorkloadIdentitySecrets m).1 := by
  rw [generatePlatformWorkloadIdentitySecrets_eq]
  simp only [List.mem_filterMap, Option.map_eq_some']
  exact ⟨identity, hid, role, hrole, rfl⟩

theorem find_last_of_nodup (secrets : List Secret) (secret : Secret)
    (hnd : (secrets.map
      (fun s => credentialsKey s.ObjectMeta.Namespace s.ObjectMeta.Name)).Nodup)
    (hmem : secret ∈ secrets) :
    secrets.reverse.find? (fun s =>
        decide (credentialsKey s.ObjectMeta.Namespace s.ObjectMeta.Name =
          credentialsKey secret.ObjectMeta.Namespace secret.ObjectMeta.Name)) = some secret := by
  cases hfind : secrets.reverse.find? (fun s =>
      decide (credentialsKey s.ObjectMeta.Namespace s.ObjectMeta.Name =
        credentialsKey secret.ObjectMeta.Namespace secret.ObjectMeta.Name)) with
  | none =>
    rw [List.find?_eq_none] at hfind
    exact absurd (by simp) (hfind secret (List.mem_reverse.mpr hmem))
  | some s' =>
    have hp := List.find?_some hfind
    have hs' : s' ∈ secrets := List.mem_reverse.mp (List.mem_of_find?_eq_some hfind)
    simp only [decide_eq_true_eq] at hp
    rw [List.inj_on_of_nodup_map hnd hs' hmem hp]

/-- C5 (as stated, refuted): with the identity `cloud-provider` declared twice the call
succeeds, two declared identities are matched and yield the same key, and the
collection has three entries, not four; the secret with client id `abc` is gone. -/
theorem generateWorkloadIdentityResources_len_counterexample :
    generateWorkloadIdentityResources duplicateIdentityManager =
      (some duplicateIdentityResources, none) ∧
    (matchedIdentities duplicateIdentityManager).length = 2 ∧
    matchedKeys duplicateIdentityManager =
      ["openshift-cloud-controller-manager-azure-credentials-credentials.yaml",
       "openshift-cloud-controller-manager-azure-credentials-credentials.yaml"] ∧
    duplicateIdentityResources.len = 3 ∧
    duplicateIdentityResources.len ≠ (matchedIdentities duplicateIdentityManager).length + 2 := by
  decide

/-- C5 (amended): on success the keys of the collection are pairwise distinct and the
number of entries is the number of distinct keys of the matched identities plus two,
hence at most the number of matched identities plus two; it is the number of matched
identities plus two exactly when the matched identities yield pairwise distinct keys,
and then every matched identity's secret is stored under its key. -/
theorem generateWorkloadIdentityResources_len (m : manager) (resources : GoMap Object)
    (h : generateWorkloadIdentityResources m = (some resources, none)) :
    resources.keys.Nodup ∧
    resources.len = (matchedKeys m).dedup.length + 2 ∧
    resources.len ≤ (matchedIdentities m).length + 2 ∧
    (resources.len = (matchedIdentities m).length + 2 ↔ (matchedKeys m).Nodup) ∧
    ((matchedKeys m).Nodup →
      ∀ identity ∈ declaredIdentities m, ∀ role,
        (roleCatalog m).get identity.OperatorName = some role →
        resources.get (credentialsKey role.SecretLocation.Namespace role.SecretLocation.Name) =
          some (Object.secret (some (platformWorkloadIdentitySecret m identity role)))) := by
  have hlen := len_of_success m resources h
  have hsub : (matchedKeys m).dedup.length ≤ (matchedKeys m).length :=
    (List.dedup_sublist _).length_le
  refine ⟨nodup_keys_of_success m resources h, hlen, ?_, ?_, ?_⟩
  · rw [hlen, ← length_matchedKeys]; omega
  · rw [hlen, ← length_matchedKeys]
    constructor
    · intro heq
      have hd : (matchedKeys m).dedup = matchedKeys m :=
        (List.dedup_sublist _).eq_of_length (by omega)
      rw [← hd]; exact List.nodup_dedup _
    · intro hnd
      rw [List.Nodup.dedup hnd]
  · intro hnd identity hid role hrole
    obtain ⟨_, issuer, _, rfl⟩ := eq_of_success m resources h
    rw [GoMap.get_set_of_ne _ _ _ _ (credentialsKey_ne_authenticationConfigFilename _ _),
      GoMap.get_set_of_ne _ _ _ _ (credentialsKey_ne_ccoSecretFilename _ _), get_mergeSecrets]
    have hfind := find_last_of_nodup (generatePlatformWorkloadIdentitySecrets m).1
      (platformWorkloadIdentitySecret m identity role)
      (by rw [map_credentialsKey_secrets]; exact hnd)
      (mem_secrets_of_matched m identity role hid hrole)
    simp only [platformWorkloadIdentitySecret] at hfind ⊢
    rw [hfind]

theorem generateWorkloadIdentityResources_len_witness :
    generateWorkloadIdentityResources
        (exampleManager true (some "https://issuer.example/cluster123")) =
      (some exampleResources, none) ∧
    exampleResources.len =
      (matchedIdentities (exampleManager true (some "https://issuer.example/cluster123"))).length
        + 2 :=
  ⟨by decide,
   by
    have hthm := generateWorkloadIdentityResources_len
      (exampleManager true (some "https://issuer.example/cluster123")) exampleResources
      (by decide)
    exact hthm.2.2.2.1.mpr (by decide)⟩

/-! ## The identity secret deriver -/

theorem secrets_withIdentities (m : manager) (identities : List PlatformWorkloadIdentity) :
    (generatePlatformWorkloadIdentitySecrets (withIdentities m identities)).1 =
      identities.filterMap (fun identity =>
        ((roleCatalog m).get identity.OperatorName).map
          (platformWorkloadIdentitySecret m identity)) := by
  rw [generatePlatformWorkloadIdentitySecrets_eq]
  rfl

/-- C6: the secret emitted for a declared identity whose operator name is found in the
role catalog sits in the returned list between the secrets of the identities declared
before it and those declared after it; it is a `v1` Secret of type Opaque at the role's
secret namespace and name, without binary data, whose string data has exactly the five
keys `azure_client_id`, `azure_subscription_id`, `azure_tenant_id`, `azure_region` and
`azure_federated_token_file`, with the identity's client id, the subscription document's
id, the subscription's tenant id, the cluster's location and the constant token path. -/
theorem generatePlatformWorkloadIdentitySecrets_emits (m : manager)
    (before after : List PlatformWorkloadIdentity) (identity : PlatformWorkloadIdentity)
    (role : PlatformWorkloadIdentityRole)
    (hids : m.doc.OpenShiftCluster.Properties.PlatformWorkloadIdentityProfile.PlatformWorkloadIdentities
      = before ++ identity :: after)
    (hrole : m.platformWorkloadIdentityRolesByVersion.GetPlatformWorkloadIdentityRolesByRoleName.get
      identity.OperatorName = some role) :
    ∃ secret : Secret,
      (generatePlatformWorkloadIdentitySecrets m).1 =
        (generatePlatformWorkloadIdentitySecrets (withIdentities m before)).1 ++
          secret :: (generatePlatformWorkloadIdentitySecrets (withIdentities m after)).1 ∧
      secret.TypeMeta.APIVersion = "v1" ∧
      secret.TypeMeta.Kind = "Secret" ∧
      secret.Type_ = "Opaque" ∧
      secret.ObjectMeta.Namespace = role.SecretLocation.Namespace ∧
      secret.ObjectMeta.Name = role.SecretLocation.Name ∧
      secret.Data = [] ∧
      secret.StringData.keys = ["azure_client_id", "azure_subscription_id", "azure_tenant_id",
        "azure_region", "azure_federated_token_file"] ∧
      secret.StringData.get "azure_client_id" = some identity.ClientID ∧
      secret.StringData.get "azure_subscription_id" = some m.subscriptionDoc.ID ∧
      secret.StringData.get "azure_tenant_id" =
        some m.subscriptionDoc.Subscription.Properties.TenantID ∧
      secret.StringData.get "azure_region" = some m.doc.OpenShiftCluster.Location ∧
      secret.StringData.get "azure_federated_token_file" =
        some "/var/run/secrets/openshift/serviceaccount/token" := by
  refine ⟨platformWorkloadIdentitySecret m identity role, ?_, rfl, rfl, rfl, rfl, rfl, rfl, rfl,
    ?_, ?_, ?_, ?_, ?_⟩
  · rw [secrets_withIdentities, secrets_withIdentities,
      generatePlatformWorkloadIdentitySecrets_eq]
    have hrole' : (roleCatalog m).get identity.OperatorName = some role := hrole
    have hids' : declaredIdentities m = before ++ identity :: after := hids
    rw [hids', List.filterMap_append, List.filterMap_cons, hrole']
    rfl
  all_goals simp [platformWorkloadIdentitySecret, GoMap.get]

theorem generatePlatformWorkloadIdentitySecrets_emits_witness :
    ∃ secret : Secret,
      (generatePlatformWorkloadIdentitySecrets (exampleManager true none)).1 =
        (generatePlatformWorkloadIdentitySecrets
            (withIdentities (exampleManager true none) [])).1 ++
          secret :: (generatePlatformWorkloadIdentitySecrets
            (withIdentities (exampleManager true none) [])).1 ∧
      secret.TypeMeta.APIVersion = "v1" ∧
      secret.TypeMeta.Kind = "Secret" ∧
      secret.Type_ = "Opaque" ∧
      secret.ObjectMeta.Namespace = "openshift-cloud-controller-manager" ∧
      secret.ObjectMeta.Name = "azure-credentials" ∧
      secret.Data = [] ∧
      secret.StringData.keys = ["azure_client_id", "azure_subscription_id", "azure_tenant_id",
        "azure_region", "azure_federated_token_file"] ∧
      secret.StringData.get "azure_client_id" = some "abc" ∧
      secret.StringData.get "azure_subscription_id" = some "sub1" ∧
      secret.StringData.get "azure_tenant_id" = some "tenant1" ∧
      secret.StringData.get "azure_region" = some "eastus" ∧
      secret.StringData.get "azure_federated_token_file" =
        some "/var/run/secrets/openshift/serviceaccount/token" :=
  generatePlatformWorkloadIdentitySecrets_emits (exampleManager true none) [] []
    { OperatorName := "cloud-provider", ClientID := "abc" }
    { OperatorName := "cloud-provider"
      SecretLocation := { Namespace := "openshift-cloud-controller-manager"
                          Name := "azure-credentials" } }
    rfl (by decide)

theorem forall₂_filter_filterMap {α β γ : Type} (look : α → Option γ) (mk : α → γ → β)
    (l : List α) :
    List.Forall₂ (fun a b => ∃ r, look a = some r ∧ b = mk a r)
      (l.filter (fun a => (look a).isSome)) (l.filterMap (fun a => (look a).map (mk a))) := by
  induction l with
  | nil => exact List.Forall₂.nil
  | cons a l ih =>
    cases hl : look a with
    | none => simpa [List.filter_cons, List.filterMap_cons, hl] using ih
    | some r =>
      simp only [List.filter_cons, List.filterMap_cons, hl, Option.isSome_some, if_true,
        Option.map_some']
      exact List.Forall₂.cons ⟨r, hl, rfl⟩ ih

theorem matchedIdentities_eq (m : manager) :
    matchedIdentities m = (declaredIdentities m).filter
      (fun identity => ((roleCatalog m).get identity.OperatorName).isSome) := by
  unfold matchedIdentities
  congr 1
  funext identity
  exact isMatched_eq m identity

/-- C7: the list returned by `generatePlatformWorkloadIdentitySecrets` corresponds,
position by position and in declaration order, to the sub-list of the declared identities
whose operator name is a key of the role catalog, each secret being the one built from
its identity and the role found for it; its length is the number of such identities; and
whenever a returned secret carries the client id of an unmatched identity, some matched
identity has that client id. -/
theorem generatePlatformWorkloadIdentitySecrets_filter (m : manager) :
    List.Forall₂
      (fun identity secret =>
        ∃ role, m.platformWorkloadIdentityRolesByVersion.GetPlatformWorkloadIdentityRolesByRoleName.get
            identity.OperatorName = some role ∧
          secret = platformWorkloadIdentitySecret m identity role)
      ((declaredIdentities m).filter (fun identity =>
        decide (identity.OperatorName ∈ (roleCatalog m).keys)))
      (generatePlatformWorkloadIdentitySecrets m).1 ∧
    (generatePlatformWorkloadIdentitySecrets m).1.length =
      (declaredIdentities m).countP (fun identity =>
        decide (identity.OperatorName ∈ (roleCatalog m).keys)) ∧
    ∀ secret ∈ (generatePlatformWorkloadIdentitySecrets m).1,
      ∀ identity ∈ declaredIdentities m,
        identity.OperatorName ∉ (roleCatalog m).keys →
        secret.StringData.get "azure_client_id" = some identity.ClientID →
        ∃ other ∈ declaredIdentities m,
          other.OperatorName ∈ (roleCatalog m).keys ∧ other.ClientID = identity.ClientID := by
  have hfa : List.Forall₂
      (fun identity secret =>
        ∃ role, (roleCatalog m).get identity.OperatorName = some role ∧
          secret = platformWorkloadIdentitySecret m identity role)
      (matchedIdentities m) (generatePlatformWorkloadIdentitySecrets m).1 := by
    rw [matchedIdentities_eq, generatePlatformWorkloadIdentitySecrets_eq]
    exact forall₂_filter_filterMap _ _ _
  refine ⟨hfa, ?_, ?_⟩
  · rw [List.countP_eq_length_filter]
    exact hfa.length_eq.symm
  · intro secret hsecret identity _ _ hclient
    rw [generatePlatformWorkloadIdentitySecrets_eq] at hsecret
    simp only [List.mem_filterMap, Option.map_eq_some'] at hsecret
    obtain ⟨other, hother, role, hrole, rfl⟩ := hsecret
    refine ⟨other, hother, ?_, ?_⟩
    · rw [← GoMap.get_isSome_iff_mem_keys]
      show ((roleCatalog m).get other.OperatorName).isSome = true
      rw [hrole]; rfl
    · simpa [platformWorkloadIdentitySecret, GoMap.get] using hclient

/-- C8: `generatePlatformWorkloadIdentitySecrets` returns the `nil` error for every
manager, and it returns the empty list exactly when the cluster declares no identities or
no declared identity's operator name is a key of the role catalog. -/
theorem generatePlatformWorkloadIdentitySecrets_never_fails (m : manager) :
    (generatePlatformWorkloadIdentitySecrets m).2 = none ∧
    ((generatePlatformWorkloadIdentitySecrets m).1 = [] ↔
      (m.doc.OpenShiftCluster.Properties.PlatformWorkloadIdentityProfile.PlatformWorkloadIdentities
          = [] ∨
        ∀ identity ∈
          m.doc.OpenShiftCluster.Properties.PlatformWorkloadIdentityProfile.PlatformWorkloadIdentities,
          identity.OperatorName ∉
            m.platformWorkloadIdentityRolesByVersion.GetPlatformWorkloadIdentityRolesByRoleName.keys)) := by
  refine ⟨rfl, ?_⟩
  rw [generatePlatformWorkloadIdentitySecrets_eq]
  simp only [List.filterMap_eq_nil_iff, Option.map_eq_none']
  constructor
  · intro hnone
    refine Or.inr (fun identity hid hmem => ?_)
    have hget := hnone identity hid
    rw [← GoMap.get_isSome_iff_mem_keys] at hmem
    have hget' : m.platformWorkloadIdentityRolesByVersion.GetPlatformWorkloadIdentityRolesByRoleName.get
        identity.OperatorName = none := hget
    rw [hget'] at hmem
    exact absurd hmem (by simp)
  · rintro (hnil | hnone) identity hid
    · have hid' : identity ∈
          m.doc.OpenShiftCluster.Properties.PlatformWorkloadIdentityProfile.PlatformWorkloadIdentities :=
        hid
      rw [hnil] at hid'
      exact absurd hid' (List.not_mem_nil _)
    · have hmem := hnone identity hid
      rw [← GoMap.get_isSome_iff_mem_keys] at hmem
      cases hget : m.platformWorkloadIdentityRolesByVersion.GetPlatformWorkloadIdentityRolesByRoleName.get
          identity.OperatorName with
      | none => exact hget
      | some role => rw [hget] at hmem; exact absurd rfl hmem

/-! ## Unmatched identities at the top level -/

theorem generateWorkloadIdentityResources_withIdentities_congr (m : manager)
    (ids ids' : List PlatformWorkloadIdentity)
    (h : (generatePlatformWorkloadIdentitySecrets (withIdentities m ids)).1 =
      (generatePlatformWorkloadIdentitySecrets (withIdentities m ids')).1) :
    generateWorkloadIdentityResources (withIdentities m ids) =
      generateWorkloadIdentityResources (withIdentities m ids') := by
  rw [generateWorkloadIdentityResources_eq, generateWorkloadIdentityResources_eq, h]
  rfl

/-- C9: putting an identity whose operator name is not a key of the role catalog into
the declared identity list, at any position, leaves the result of
`generateWorkloadIdentityResources` (error or collection) unchanged; read from right to
left, so does removing it. -/
theorem generateWorkloadIdentityResources_skips_unmatched (m : manager)
    (before after : List PlatformWorkloadIdentity) (identity : PlatformWorkloadIdentity)
    (hids : m.doc.OpenShiftCluster.Properties.PlatformWorkloadIdentityProfile.PlatformWorkloadIdentities
      = before ++ after)
    (hrole : identity.OperatorName ∉
      m.platformWorkloadIdentityRolesByVersion.GetPlatformWorkloadIdentityRolesByRoleName.keys) :
    generateWorkloadIdentityResources (withIdentities m (before ++ identity :: after)) =
      generateWorkloadIdentityResources m := by
  have hm : m = withIdentities m (before ++ after) := by
    rw [← hids]; rfl
  have hget : (roleCatalog m).get identity.OperatorName = none := by
    apply get_eq_none_of_not_isMatched
    simpa [isMatched, roleCatalog] using hrole
  conv_rhs => rw [hm]
  apply generateWorkloadIdentityResources_withIdentities_congr
  rw [secrets_withIdentities, secrets_withIdentities, List.filterMap_append,
    List.filterMap_append, List.filterMap_cons, hget]
  rfl

theorem generateWorkloadIdentityResources_skips_unmatched_witness :
    generateWorkloadIdentityResources
        (withIdentities (exampleManager true (some "https://issuer.example/cluster123"))
          ([] ++ { OperatorName := "ingress", ClientID := "xyz" } ::
            [{ OperatorName := "cloud-provider", ClientID := "abc" }])) =
      generateWorkloadIdentityResources
        (exampleManager true (some "https://issuer.example/cluster123")) :=
  generateWorkloadIdentityResources_skips_unmatched
    (exampleManager true (some "https://issuer.example/cluster123"))
    [] [{ OperatorName := "cloud-provider", ClientID := "abc" }]
    { OperatorName := "ingress", ClientID := "xyz" } rfl (by decide)

/-! ## The authentication config deriver -/

/-- C10: `generateAuthenticationConfig` returns an error exactly when the cluster
profile's OIDC issuer is `nil`, and then it is the missing-issuer error with a `nil`
object; for every issuer string, the empty one included, it returns without error the
Authentication object of API version `config.openshift.io/v1` named `cluster` whose
`ServiceAccountIssuer` is that string; and whenever `generateWorkloadIdentityResources`
succeeds, the object it returns is the value stored under
`cluster-authentication-02-config.yaml`. -/
theorem generateAuthenticationConfig_spec (m : manager) :
    ((generateAuthenticationConfig m).2 ≠ none ↔
      m.doc.OpenShiftCluster.Properties.ClusterProfile.OIDCIssuer = none) ∧
    (m.doc.OpenShiftCluster.Properties.ClusterProfile.OIDCIssuer = none →
      generateAuthenticationConfig m = (none, some "oidcIssuer not present in clusterdoc")) ∧
    (∀ issuer : String,
      m.doc.OpenShiftCluster.Properties.ClusterProfile.OIDCIssuer = some issuer →
      generateAuthenticationConfig m =
        (some { TypeMeta := { APIVersion := "config.openshift.io/v1", Kind := "Authentication" }
                ObjectMeta := { Namespace := "", Name := "cluster" }
                Spec := { ServiceAccountIssuer := issuer } }, none)) ∧
    (∀ resources : GoMap Object,
      generateWorkloadIdentityResources m = (some resources, none) →
      ∃ authentication : Authentication,
        generateAuthenticationConfig m = (some authentication, none) ∧
        resources.get "cluster-authentication-02-config.yaml" =
          some (Object.authentication (some authentication))) := by
  refine ⟨?_, ?_, ?_, ?_⟩
  · cases hi : m.doc.OpenShiftCluster.Properties.ClusterProfile.OIDCIssuer <;>
      simp [generateAuthenticationConfig, hi]
  · intro hi
    simp [generateAuthenticationConfig, hi]
  · intro issuer hi
    simp [generateAuthenticationConfig, hi, configv1SchemeGroupVersionIdentifier,
      authenticationConfigName]
  · intro resources h
    obtain ⟨_, issuer, hi, rfl⟩ := eq_of_success m resources h
    refine ⟨authenticationFor issuer, ?_, GoMap.get_set_self _ _ _⟩
    simp [generateAuthenticationConfig, hi, configv1SchemeGroupVersionIdentifier,
      authenticationConfigName, authenticationFor]

theorem generateAuthenticationConfig_spec_witness :
    generateAuthenticationConfig
        (exampleManager true (some "https://issuer.example/cluster123")) =
      (some { TypeMeta := { APIVersion := "config.openshift.io/v1", Kind := "Authentication" }
              ObjectMeta := { Namespace := "", Name := "cluster" }
              Spec := { ServiceAccountIssuer := "https://issuer.example/cluster123" } }, none) ∧
    ∃ authentication : Authentication,
      generateAuthenticationConfig
          (exampleManager true (some "https://issuer.example/cluster123")) =
        (some authentication, none) ∧
      exampleResources.get "cluster-authentication-02-config.yaml" =
        some (Object.authentication (some authentication)) :=
  ⟨(generateAuthenticationConfig_spec
      (exampleManager true (some "https://issuer.example/cluster123"))).2.2.1
      "https://issuer.example/cluster123" rfl,
   (generateAuthenticationConfig_spec
      (exampleManager true (some "https://issuer.example/cluster123"))).2.2.2
      exampleResources (by decide)⟩

/-! ## Entries of Go maps -/

namespace GoMap

variable {β : Type}

theorem mem_of_mem_set (m : GoMap β) (k : String) (v : β) (e : String × β)
    (h : e ∈ m.set k v) : e = (k, v) ∨ e ∈ m := by
  induction m with
  | nil => simpa [set] using h
  | cons p rest ih =>
    obtain ⟨k₀, v₀⟩ := p
    by_cases h₀ : k₀ = k
    · simp only [set, h₀, if_true, List.mem_cons] at h
      rcases h with h | h
      · exact Or.inl h
      · exact Or.inr (List.mem_cons_of_mem _ h)
    · simp only [set, h₀, if_false, List.mem_cons] at h
      rcases h with h | h
      · exact Or.inr (by rw [h]; exact List.mem_cons_self _ _)
      · rcases ih h with h' | h'
        · exact Or.inl h'
        · exact Or.inr (List.mem_cons_of_mem _ h')

theorem mem_of_get (m : GoMap β) (k : String) (v : β) (h : m.get k = some v) : (k, v) ∈ m := by
  induction m with
  | nil => simp [get] at h
  | cons p rest ih =>
    obtain ⟨k₀, v₀⟩ := p
    by_cases h₀ : k₀ = k
    · subst h₀
      simp only [get, if_true, Option.some.injEq] at h
      subst h
      exact List.mem_cons_self _ _
    · simp only [get, h₀, if_false] at h
      exact List.mem_cons_of_mem _ (ih h)

theorem get_of_mem (m : GoMap β) (k : String) (v : β) (hnd : m.keys.Nodup) (h : (k, v) ∈ m) :
    m.get k = some v := by
  induction m with
  | nil => simp at h
  | cons p rest ih =>
    obtain ⟨k₀, v₀⟩ := p
    have hnd' : k₀ ∉ keys rest ∧ (keys rest).Nodup := by simpa [keys] using hnd
    rcases List.mem_cons.mp h with h | h
    · simp only [Prod.mk.injEq] at h
      obtain ⟨rfl, rfl⟩ := h
      simp [get]
    · have hk : k ∈ keys rest := List.mem_map.mpr ⟨(k, v), h, rfl⟩
      have hne : k₀ ≠ k := fun hc => hnd'.1 (hc ▸ hk)
      simp only [get, hne, if_false]
      exact ih hnd'.2 h

end GoMap

theorem length_le_one_of_nodup_of_forall_eq {α : Type} (l : List α) (a : α) (hnd : l.Nodup)
    (hall : ∀ x ∈ l, x = a) : l.length ≤ 1 := by
  match l, hnd, hall with
  | [], _, _ => simp
  | [_], _, _ => simp
  | x :: y :: rest, hnd, hall =>
    have hx : x = a := hall x (List.mem_cons_self _ _)
    have hy : y = a := hall y (List.mem_cons_of_mem _ (List.mem_cons_self _ _))
    have hxy : x ≠ y := by
      intro hc
      have := (List.nodup_cons.mp hnd).1
      exact this (hc ▸ List.mem_cons_self _ _)
    exact absurd (hx.trans hy.symm) hxy

theorem mem_of_mem_mergeSecrets (secrets : List Secret) (resources : GoMap Object)
    (e : String × Object) (h : e ∈ mergeSecrets resources secrets) :
    e ∈ resources ∨ ∃ secret ∈ secrets,
      e = (credentialsKey secret.ObjectMeta.Namespace secret.ObjectMeta.Name,
        Object.secret (some secret)) := by
  induction secrets generalizing resources with
  | nil => exact Or.inl h
  | cons s rest ih =>
    have hstep : mergeSecrets resources (s :: rest) =
        mergeSecrets (resources.set (credentialsKey s.ObjectMeta.Namespace s.ObjectMeta.Name)
          (Object.secret (some s))) rest := rfl
    rw [hstep] at h
    rcases ih _ h with h' | ⟨secret, hsecret, he⟩
    · rcases GoMap.mem_of_mem_set _ _ _ _ h' with h'' | h''
      · exact Or.inr ⟨s, List.mem_cons_self _ _, h''⟩
      · exact Or.inl h''
    · exact Or.inr ⟨secret, List.mem_cons_of_mem _ hsecret, he⟩

/-- On success the operator secret key holds the operator secret. -/
theorem get_ccoSecretFilename_of_success (m : manager) (resources : GoMap Object)
    (h : generateWorkloadIdentityResources m = (some resources, none)) :
    resources.get ccoSecretFilename =
      some (Object.secret (generateCloudCredentialOperatorSecret m).1) := by
  obtain ⟨_, issuer, _, rfl⟩ := eq_of_success m resources h
  rw [GoMap.get_set_of_ne _ _ _ _ ccoSecretFilename_ne_authenticationConfigFilename,
    GoMap.get_set_self]

/-- On success the authentication config key holds the authentication object of the
issuer. -/
theorem get_authenticationConfigFilename_of_success (m : manager) (resources : GoMap Object)
    (h : generateWorkloadIdentityResources m = (some resources, none)) :
    ∃ issuer, m.doc.OpenShiftCluster.Properties.ClusterProfile.OIDCIssuer = some issuer ∧
      resources.get authenticationConfigFilename =
        some (Object.authentication (some (authenticationFor issuer))) := by
  obtain ⟨_, issuer, hi, rfl⟩ := eq_of_success m resources h
  exact ⟨issuer, hi, GoMap.get_set_self _ _ _⟩

/-! ## The operator secret deriver -/

/-- C11: `generateCloudCredentialOperatorSecret` returns, without error, the `v1` Secret
of type Opaque at `openshift-cloud-credential-operator/azure-credentials` whose string
data is the single entry `azure_tenant_id` with the subscription's tenant id; two managers
with the same tenant id get the same result, whatever their cluster records and role
catalogs; and on every successful `generateWorkloadIdentityResources` the value stored
under `azure-ad-pod-identity-webhook-config.yaml` is this secret. -/
theorem generateCloudCredentialOperatorSecret_spec (m : manager) :
    generateCloudCredentialOperatorSecret m =
      (some { TypeMeta := { APIVersion := "v1", Kind := "Secret" }
              ObjectMeta := { Namespace := "openshift-cloud-credential-operator"
                              Name := "azure-credentials" }
              Data := []
              StringData := [("azure_tenant_id",
                m.subscriptionDoc.Subscription.Properties.TenantID)]
              Type_ := "Opaque" }, none) ∧
    (∀ other : manager,
      other.subscriptionDoc.Subscription.Properties.TenantID =
        m.subscriptionDoc.Subscription.Properties.TenantID →
      generateCloudCredentialOperatorSecret other = generateCloudCredentialOperatorSecret m) ∧
    (∀ resources : GoMap Object,
      generateWorkloadIdentityResources m = (some resources, none) →
      resources.get "azure-ad-pod-identity-webhook-config.yaml" =
        some (Object.secret (generateCloudCredentialOperatorSecret m).1)) := by
  refine ⟨rfl, ?_, ?_⟩
  · intro other htenant
    simp only [generateCloudCredentialOperatorSecret, htenant]
  · intro resources h
    exact get_ccoSecretFilename_of_success m resources h

theorem generateCloudCredentialOperatorSecret_spec_witness :
    generateWorkloadIdentityResources operatorLocationManager =
      (some operatorLocationResources, none) ∧
    operatorLocationResources.get "azure-ad-pod-identity-webhook-config.yaml" =
      some (Object.secret (generateCloudCredentialOperatorSecret operatorLocationManager).1) :=
  ⟨by decide,
   (generateCloudCredentialOperatorSecret_spec operatorLocationManager).2.2
    operatorLocationResources (by decide)⟩

/-! ## Kinds of the objects of the collection -/

/-- C12: on success every entry of the collection is either the entry of the
authentication config key, whose value is an Authentication object of kind
`Authentication`, or an entry of another key whose value is a Secret of kind `Secret`,
API version `v1` and type Opaque without binary data; exactly one entry has an
Authentication value, and it is the one found under the authentication config key. -/
theorem generateWorkloadIdentityResources_kinds (m : manager) (resources : GoMap Object)
    (h : generateWorkloadIdentityResources m = (some resources, none)) :
    (∀ k v, (k, v) ∈ resources →
      (k = "cluster-authentication-02-config.yaml" ∧
        ∃ authentication : Authentication, v = Object.authentication (some authentication) ∧
          authentication.TypeMeta.Kind = "Authentication" ∧
          authentication.TypeMeta.APIVersion = "config.openshift.io/v1") ∨
      (k ≠ "cluster-authentication-02-config.yaml" ∧
        ∃ secret : Secret, v = Object.secret (some secret) ∧
          secret.TypeMeta.Kind = "Secret" ∧
          secret.TypeMeta.APIVersion = "v1" ∧
          secret.Type_ = "Opaque" ∧
          secret.Data = [])) ∧
    resources.countP (fun entry => entry.2.isAuthentication) = 1 ∧
    (∃ authentication : Authentication,
      resources.get "cluster-authentication-02-config.yaml" =
        some (Object.authentication (some authentication))) := by
  have hclass : ∀ k v, (k, v) ∈ resources →
      (k = authenticationConfigFilename ∧
        ∃ authentication : Authentication, v = Object.authentication (some authentication) ∧
          authentication.TypeMeta.Kind = "Authentication" ∧
          authentication.TypeMeta.APIVersion = "config.openshift.io/v1") ∨
      (k ≠ authenticationConfigFilename ∧
        ∃ secret : Secret, v = Object.secret (some secret) ∧
          secret.TypeMeta.Kind = "Secret" ∧
          secret.TypeMeta.APIVersion = "v1" ∧
          secret.Type_ = "Opaque" ∧
          secret.Data = []) := by
    intro k v hmem
    obtain ⟨_, issuer, _, rfl⟩ := eq_of_success m resources h
    rcases GoMap.mem_of_mem_set _ _ _ _ hmem with he | hmem
    · simp only [Prod.mk.injEq] at he
      obtain ⟨rfl, rfl⟩ := he
      exact Or.inl ⟨rfl, authenticationFor issuer, rfl, rfl, rfl⟩
    · rcases GoMap.mem_of_mem_set _ _ _ _ hmem with he | hmem
      · simp only [Prod.mk.injEq] at he
        obtain ⟨rfl, rfl⟩ := he
        exact Or.inr ⟨ccoSecretFilename_ne_authenticationConfigFilename, _, rfl, rfl, rfl, rfl, rfl⟩
      · rcases mem_of_mem_mergeSecrets _ _ _ hmem with hnil | ⟨secret, hsecret, he⟩
        · exact absurd hnil (List.not_mem_nil _)
        · simp only [Prod.mk.injEq] at he
          obtain ⟨rfl, rfl⟩ := he
          rw [generatePlatformWorkloadIdentitySecrets_eq] at hsecret
          simp only [List.mem_filterMap, Option.map_eq_some'] at hsecret
          obtain ⟨identity, _, role, _, rfl⟩ := hsecret
          exact Or.inr ⟨credentialsKey_ne_authenticationConfigFilename _ _, _, rfl, rfl, rfl,
            rfl, rfl⟩
  obtain ⟨issuer, _, hget⟩ := get_authenticationConfigFilename_of_success m resources h
  refine ⟨hclass, ?_, ⟨authenticationFor issuer, hget⟩⟩
  rw [List.countP_eq_length_filter]
  have hmem : (authenticationConfigFilename, Object.authentication (some (authenticationFor issuer)))
      ∈ resources.filter (fun entry => entry.2.isAuthentication) :=
    List.mem_filter.mpr ⟨GoMap.mem_of_get _ _ _ hget, rfl⟩
  have hpos := List.length_pos_of_mem hmem
  have hnd : ((resources.filter (fun entry => entry.2.isAuthentication)).map Prod.fst).Nodup :=
    List.Nodup.sublist (List.Sublist.map _ (List.filter_sublist _))
      (nodup_keys_of_success m resources h)
  have hall : ∀ x ∈ (resources.filter (fun entry => entry.2.isAuthentication)).map Prod.fst,
      x = authenticationConfigFilename := by
    intro x hx
    obtain ⟨⟨k, v⟩, he, rfl⟩ := List.mem_map.mp hx
    obtain ⟨hin, hauth⟩ := List.mem_filter.mp he
    rcases hclass k v hin with ⟨hk, _⟩ | ⟨_, secret, rfl, _⟩
    · exact hk
    · simp [Object.isAuthentication] at hauth
  have hle := length_le_one_of_nodup_of_forall_eq _ _ hnd hall
  rw [List.length_map] at hle
  omega

theorem generateWorkloadIdentityResources_kinds_witness :
    generateWorkloadIdentityResources
        (exampleManager true (some "https://issuer.example/cluster123")) =
      (some exampleResources, none) ∧
    exampleResources.countP (fun entry => entry.2.isAuthentication) = 1 ∧
    (∃ authentication : Authentication,
      exampleResources.get "cluster-authentication-02-config.yaml" =
        some (Object.authentication (some authentication))) :=
  ⟨by decide,
   (generateWorkloadIdentityResources_kinds
    (exampleManager true (some "https://issuer.example/cluster123")) exampleResources
    (by decide)).2⟩

/-! ## Order of the derivation steps -/

theorem GoMap.get_set (m : GoMap Object) (k k' : String) (v : Object) :
    (m.set k v).get k' = if k' = k then some v else m.get k' := by
  by_cases h : k' = k
  · subst h; simp [GoMap.get_set_self]
  · simp [h, GoMap.get_set_of_ne _ _ _ _ h]

theorem get_mergeSecrets_or (secrets : List Secret) (resources : GoMap Object) (k : String) :
    (mergeSecrets resources secrets).get k =
      ((secrets.reverse.find?
          (fun secret => credentialsKey secret.ObjectMeta.Namespace secret.ObjectMeta.Name = k)).map
        (fun secret => Object.secret (some secret))).or (resources.get k) := by
  rw [get_mergeSecrets]
  cases secrets.reverse.find?
    (fun secret => decide (credentialsKey secret.ObjectMeta.Namespace secret.ObjectMeta.Name = k)) <;>
    simp

theorem find_ccoSecretFilename (secrets : List Secret) :
    secrets.reverse.find? (fun secret =>
      decide (credentialsKey secret.ObjectMeta.Namespace secret.ObjectMeta.Name =
        ccoSecretFilename)) = none := by
  rw [List.find?_eq_none]
  intro secret _
  simpa using credentialsKey_ne_ccoSecretFilename _ _

theorem find_authenticationConfigFilename (secrets : List Secret) :
    secrets.reverse.find? (fun secret =>
      decide (credentialsKey secret.ObjectMeta.Namespace secret.ObjectMeta.Name =
        authenticationConfigFilename)) = none := by
  rw [List.find?_eq_none]
  intro secret _
  simpa using credentialsKey_ne_authenticationConfigFilename _ _

theorem runStep_identitySecrets (m : manager) (resources : GoMap Object) :
    runStep m resources DerivationStep.identitySecrets =
      Except.ok (mergeSecrets resources (generatePlatformWorkloadIdentitySecrets m).1) := rfl

theorem runStep_operatorSecret (m : manager) (resources : GoMap Object) :
    runStep m resources DerivationStep.operatorSecret =
      Except.ok (resources.set ccoSecretFilename
        (Object.secret (generateCloudCredentialOperatorSecret m).1)) := rfl

theorem runStep_authenticationConfig (m : manager) (resources : GoMap Object) :
    runStep m resources DerivationStep.authenticationConfig =
      match m.doc.OpenShiftCluster.Properties.ClusterProfile.OIDCIssuer with
      | none => Except.error "oidcIssuer not present in clusterdoc"
      | some issuer => Except.ok (resources.set authenticationConfigFilename
          (Object.authentication (some (authenticationFor issuer)))) := by
  cases hi : m.doc.OpenShiftCluster.Properties.ClusterProfile.OIDCIssuer <;>
    simp [runStep, generateAuthenticationConfig, hi, authenticationFor,
      configv1SchemeGroupVersionIdentifier, authenticationConfigName]

theorem nodup_keys_runSteps (m : manager) (order : List DerivationStep)
    (resources result : GoMap Object) (hnd : resources.keys.Nodup)
    (h : runSteps m order resources = Except.ok result) : result.keys.Nodup := by
  induction order generalizing resources with
  | nil =>
    simp only [runSteps, Except.ok.injEq] at h
    exact h ▸ hnd
  | cons step rest ih =>
    simp only [runSteps] at h
    cases step with
    | identitySecrets =>
      rw [runStep_identitySecrets] at h
      exact ih _ (nodup_keys_mergeSecrets _ _ hnd) h
    | operatorSecret =>
      rw [runStep_operatorSecret] at h
      exact ih _ (GoMap.nodup_keys_set _ _ _ hnd) h
    | authenticationConfig =>
      rw [runStep_authenticationConfig] at h
      cases hi : m.doc.OpenShiftCluster.Properties.ClusterProfile.OIDCIssuer with
      | none => simp [hi] at h
      | some issuer =>
        simp only [hi] at h
        exact ih _ (GoMap.nodup_keys_set _ _ _ hnd) h

theorem keys_perm_of_get_eq (r r' : GoMap Object) (hnd : r.keys.Nodup) (hnd' : r'.keys.Nodup)
    (h : ∀ k, r.get k = r'.get k) : r.keys.Perm r'.keys := by
  rw [List.perm_ext_iff_of_nodup hnd hnd']
  intro k
  rw [← GoMap.get_isSome_iff_mem_keys, ← GoMap.get_isSome_iff_mem_keys, h k]

theorem generateInOrder_implementedOrder (m : manager) :
    generateInOrder m implementedOrder = generateWorkloadIdentityResources m := by
  rw [generateWorkloadIdentityResources_eq]
  cases hu : m.doc.OpenShiftCluster.UsesWorkloadIdentity
  · simp [generateInOrder, hu]
  · cases hi : m.doc.OpenShiftCluster.Properties.ClusterProfile.OIDCIssuer <;>
      simp [generateInOrder, implementedOrder, runSteps, runStep_identitySecrets,
        runStep_operatorSecret, runStep_authenticationConfig, hu, hi, GoMap.empty]

/-- The lookups of a collection built by the three steps in a permuted order agree with
those of the implemented order. -/
theorem get_runSteps_of_perm (m : manager) (order : List DerivationStep)
    (hperm : order.Perm implementedOrder) (issuer : String)
    (hi : m.doc.OpenShiftCluster.Properties.ClusterProfile.OIDCIssuer = some issuer) :
    ∃ result, runSteps m order GoMap.empty = Except.ok result ∧
      ∀ k, result.get k =
        (((mergeSecrets [] (generatePlatformWorkloadIdentitySecrets m).1).set
          ccoSecretFilename (Object.secret (generateCloudCredentialOperatorSecret m).1)).set
          authenticationConfigFilename
          (Object.authentication (some (authenticationFor issuer)))).get k := by
  obtain ⟨a, b, c, rfl⟩ := List.length_eq_three.mp hperm.length_eq
  have hne := ccoSecretFilename_ne_authenticationConfigFilename
  cases a <;> cases b <;> cases c <;>
    first
    | exact absurd hperm (by decide)
    | (refine ⟨_, by
          simp only [runSteps, runStep_identitySecrets, runStep_operatorSecret,
            runStep_authenticationConfig, hi]; rfl, fun k => ?_⟩
       by_cases h1 : k = authenticationConfigFilename
       · subst h1
         simp [GoMap.get_set, get_mergeSecrets_or, find_authenticationConfigFilename,
           GoMap.empty, GoMap.get, Ne.symm hne, hne]
       · by_cases h2 : k = ccoSecretFilename
         · subst h2
           simp [GoMap.get_set, get_mergeSecrets_or, find_ccoSecretFilename,
             GoMap.empty, GoMap.get, Ne.symm hne, hne]
         · simp [GoMap.get_set, get_mergeSecrets_or, GoMap.empty, GoMap.get, h1, h2,
             Ne.symm h1, Ne.symm h2])

/-- C13: running and merging the identity-secret, operator-secret and
authentication-config steps in the implemented order is `generateWorkloadIdentityResources`,
and in any permutation of that order it returns the same error and, on success, a
collection with the same value under every key and the same keys. -/
theorem generateInOrder_order_independent (m : manager) (order : List DerivationStep)
    (hperm : order.Perm [DerivationStep.identitySecrets, DerivationStep.operatorSecret,
      DerivationStep.authenticationConfig]) :
    generateInOrder m [DerivationStep.identitySecrets, DerivationStep.operatorSecret,
      DerivationStep.authenticationConfig] = generateWorkloadIdentityResources m ∧
    (generateInOrder m order).2 = (generateWorkloadIdentityResources m).2 ∧
    ((generateInOrder m order).1 = none ↔ (generateWorkloadIdentityResources m).1 = none) ∧
    ∀ permuted implemented : GoMap Object,
      (generateInOrder m order).1 = some permuted →
      (generateWorkloadIdentityResources m).1 = some implemented →
      (∀ k, permuted.get k = implemented.get k) ∧
      permuted.keys.Perm implemented.keys ∧
      permuted.len = implemented.len := by
  refine ⟨generateInOrder_implementedOrder m, ?_⟩
  cases hu : m.doc.OpenShiftCluster.UsesWorkloadIdentity
  · rw [generateWorkloadIdentityResources_eq]
    simp [generateInOrder, hu]
  · cases hi : m.doc.OpenShiftCluster.Properties.ClusterProfile.OIDCIssuer with
    | none =>
      have herr : runSteps m order GoMap.empty =
          Except.error "oidcIssuer not present in clusterdoc" := by
        obtain ⟨a, b, c, rfl⟩ := List.length_eq_three.mp hperm.length_eq
        cases a <;> cases b <;> cases c <;>
          first
          | exact absurd hperm (by decide)
          | simp [runSteps, runStep_identitySecrets, runStep_operatorSecret,
              runStep_authenticationConfig, hi]
      rw [generateWorkloadIdentityResources_eq]
      simp [generateInOrder, hu, hi, herr]
    | some issuer =>
      obtain ⟨result, hrun, hget⟩ := get_runSteps_of_perm m order hperm issuer hi
      have hnd : result.keys.Nodup :=
        nodup_keys_runSteps m order GoMap.empty result (by simp [GoMap.empty, GoMap.keys]) hrun
      have himpl := generateWorkloadIdentityResources_eq m
      simp only [hu, hi, Bool.true_eq_false, if_false] at himpl
      have hnd' := nodup_keys_of_success m _ himpl
      have hperm' := keys_perm_of_get_eq _ _ hnd hnd' hget
      rw [himpl]
      simp only [generateInOrder, hu, hrun, Bool.not_true, Bool.false_eq_true, if_false,
        Option.some.injEq, true_and]
      refine ⟨by simp, ?_⟩
      intro permuted implemented h1 h2
      subst h1; subst h2
      refine ⟨hget, hperm', ?_⟩
      have := hperm'.length_eq
      simpa [GoMap.keys, GoMap.len] using this

theorem generateInOrder_order_independent_witness :
    (generateInOrder (exampleManager true (some "https://issuer.example/cluster123"))
        [DerivationStep.authenticationConfig, DerivationStep.operatorSecret,
          DerivationStep.identitySecrets]).2 =
      (generateWorkloadIdentityResources
        (exampleManager true (some "https://issuer.example/cluster123"))).2 ∧
    (generateInOrder (exampleManager true none)
        [DerivationStep.authenticationConfig, DerivationStep.operatorSecret,
          DerivationStep.identitySecrets]).2 =
      (generateWorkloadIdentityResources (exampleManager true none)).2 :=
  ⟨(generateInOrder_order_independent
      (exampleManager true (some "https://issuer.example/cluster123"))
      [DerivationStep.authenticationConfig, DerivationStep.operatorSecret,
        DerivationStep.identitySecrets] (by decide)).2.1,
   (generateInOrder_order_independent (exampleManager true none)
      [DerivationStep.authenticationConfig, DerivationStep.operatorSecret,
        DerivationStep.identitySecrets] (by decide)).2.1⟩

/-! ## Determinism -/

theorem secrets_eq_of_locations_eq (m other : manager)
    (hids : declaredIdentities m = declaredIdentities other)
    (hlocation : m.doc.OpenShiftCluster.Location = other.doc.OpenShiftCluster.Location)
    (hsubscription : m.subscriptionDoc.ID = other.subscriptionDoc.ID)
    (htenant : m.subscriptionDoc.Subscription.Properties.TenantID =
      other.subscriptionDoc.Subscription.Properties.TenantID)
    (hroles : ∀ identity ∈ declaredIdentities m,
      ((roleCatalog m).get identity.OperatorName).map (fun role => role.SecretLocation) =
        ((roleCatalog other).get identity.OperatorName).map (fun role => role.SecretLocation)) :
    generatePlatformWorkloadIdentitySecrets m = generatePlatformWorkloadIdentitySecrets other := by
  rw [generatePlatformWorkloadIdentitySecrets_eq, generatePlatformWorkloadIdentitySecrets_eq,
    ← hids]
  congr 1
  apply List.filterMap_congr
  intro identity hid
  have hrole := hroles identity hid
  cases hm : (roleCatalog m).get identity.OperatorName with
  | none =>
    cases ho : (roleCatalog other).get identity.OperatorName with
    | none => rfl
    | some role' => rw [hm, ho] at hrole; simp at hrole
  | some role =>
    cases ho : (roleCatalog other).get identity.OperatorName with
    | none => rw [hm, ho] at hrole; simp at hrole
    | some role' =>
      rw [hm, ho] at hrole
      simp only [Option.map_some', Option.some.injEq] at hrole
      simp only [Option.map_some', platformWorkloadIdentitySecret, hrole, hlocation,
        hsubscription, htenant]

/-- C14: the result of `generateWorkloadIdentityResources` is determined by the
workload-identity flag, the declared identity list, the cluster location, the OIDC
issuer, the subscription id, the tenant id and the role catalog: two managers that agree
on these seven inputs get the same error or the same collection. Of the role catalog only
the secret locations found for the declared operator names matter: two managers whose
catalogs differ in their other entries, in the order of their entries or in the other
fields of their roles, and agree on the six other inputs, still get the same result. -/
theorem generateWorkloadIdentityResources_deterministic (m : manager) :
    (∀ other : manager,
      m.doc.OpenShiftCluster.UsesWorkloadIdentity =
        other.doc.OpenShiftCluster.UsesWorkloadIdentity →
      m.doc.OpenShiftCluster.Properties.PlatformWorkloadIdentityProfile.PlatformWorkloadIdentities
        = other.doc.OpenShiftCluster.Properties.PlatformWorkloadIdentityProfile.PlatformWorkloadIdentities →
      m.doc.OpenShiftCluster.Location = other.doc.OpenShiftCluster.Location →
      m.doc.OpenShiftCluster.Properties.ClusterProfile.OIDCIssuer =
        other.doc.OpenShiftCluster.Properties.ClusterProfile.OIDCIssuer →
      m.subscriptionDoc.ID = other.subscriptionDoc.ID →
      m.subscriptionDoc.Subscription.Properties.TenantID =
        other.subscriptionDoc.Subscription.Properties.TenantID →
      m.platformWorkloadIdentityRolesByVersion.GetPlatformWorkloadIdentityRolesByRoleName =
        other.platformWorkloadIdentityRolesByVersion.GetPlatformWorkloadIdentityRolesByRoleName →
      generateWorkloadIdentityResources m = generateWorkloadIdentityResources other) ∧
    (∀ other : manager,
      m.doc.OpenShiftCluster.UsesWorkloadIdentity =
        other.doc.OpenShiftCluster.UsesWorkloadIdentity →
      m.doc.OpenShiftCluster.Properties.PlatformWorkloadIdentityProfile.PlatformWorkloadIdentities
        = other.doc.OpenShiftCluster.Properties.PlatformWorkloadIdentityProfile.PlatformWorkloadIdentities →
      m.doc.OpenShiftCluster.Location = other.doc.OpenShiftCluster.Location →
      m.doc.OpenShiftCluster.Properties.ClusterProfile.OIDCIssuer =
        other.doc.OpenShiftCluster.Properties.ClusterProfile.OIDCIssuer →
      m.subscriptionDoc.ID = other.subscriptionDoc.ID →
      m.subscriptionDoc.Subscription.Properties.TenantID =
        other.subscriptionDoc.Subscription.Properties.TenantID →
      (∀ identity ∈
          m.doc.OpenShiftCluster.Properties.PlatformWorkloadIdentityProfile.PlatformWorkloadIdentities,
        (m.platformWorkloadIdentityRolesByVersion.GetPlatformWorkloadIdentityRolesByRoleName.get
            identity.OperatorName).map (fun role => role.SecretLocation) =
          (other.platformWorkloadIdentityRolesByVersion.GetPlatformWorkloadIdentityRolesByRoleName.get
            identity.OperatorName).map (fun role => role.SecretLocation)) →
      generateWorkloadIdentityResources m = generateWorkloadIdentityResources other) := by
  have hsharp : ∀ other : manager,
      m.doc.OpenShiftCluster.UsesWorkloadIdentity =
        other.doc.OpenShiftCluster.UsesWorkloadIdentity →
      declaredIdentities m = declaredIdentities other →
      m.doc.OpenShiftCluster.Location = other.doc.OpenShiftCluster.Location →
      m.doc.OpenShiftCluster.Properties.ClusterProfile.OIDCIssuer =
        other.doc.OpenShiftCluster.Properties.ClusterProfile.OIDCIssuer →
      m.subscriptionDoc.ID = other.subscriptionDoc.ID →
      m.subscriptionDoc.Subscription.Properties.TenantID =
        other.subscriptionDoc.Subscription.Properties.TenantID →
      (∀ identity ∈ declaredIdentities m,
        ((roleCatalog m).get identity.OperatorName).map (fun role => role.SecretLocation) =
          ((roleCatalog other).get identity.OperatorName).map (fun role => role.SecretLocation)) →
      generateWorkloadIdentityResources m = generateWorkloadIdentityResources other := by
    intro other hflag hids hlocation hissuer hsubscription htenant hroles
    have hsecrets := secrets_eq_of_locations_eq m other hids hlocation hsubscription htenant hroles
    have hoperator : generateCloudCredentialOperatorSecret m =
        generateCloudCredentialOperatorSecret other := by
      simp only [generateCloudCredentialOperatorSecret, htenant]
    rw [generateWorkloadIdentityResources_eq, generateWorkloadIdentityResources_eq, hflag,
      hissuer, hsecrets, hoperator]
  refine ⟨?_, hsharp⟩
  intro other hflag hids hlocation hissuer hsubscription htenant hroles
  refine hsharp other hflag hids hlocation hissuer hsubscription htenant ?_
  intro identity _
  have hroles' : roleCatalog m = roleCatalog other := hroles
  rw [hroles']

theorem generateWorkloadIdentityResources_deterministic_witness :
    exampleManager true (some "https://issuer.example/cluster123") ≠ otherCatalogManager ∧
    generateWorkloadIdentityResources
        (exampleManager true (some "https://issuer.example/cluster123")) =
      generateWorkloadIdentityResources otherCatalogManager ∧
    generateWorkloadIdentityResources otherCatalogManager = (some exampleResources, none) :=
  ⟨by decide,
   (generateWorkloadIdentityResources_deterministic
      (exampleManager true (some "https://issuer.example/cluster123"))).2 otherCatalogManager
      rfl rfl rfl rfl rfl rfl (by decide),
   by decide⟩

/-! ## Fixed keys and colliding keys -/

/-- C15: for every namespace and name the key `<namespace>-<name>-credentials.yaml`
differs from the operator secret key and from the authentication config key, and these
two differ from each other; so on success the value under a credentials key is the one
left there by the merge of the identity secrets, the operator secret key holds the
operator secret and the authentication config key holds an Authentication object. -/
theorem credentialsKey_ne_fixed_keys (namespace_ name : String) :
    namespace_ ++ "-" ++ name ++ "-credentials.yaml" ≠
      "azure-ad-pod-identity-webhook-config.yaml" ∧
    namespace_ ++ "-" ++ name ++ "-credentials.yaml" ≠
      "cluster-authentication-02-config.yaml" ∧
    ccoSecretFilename ≠ authenticationConfigFilename ∧
    ∀ (m : manager) (resources : GoMap Object),
      generateWorkloadIdentityResources m = (some resources, none) →
      resources.get (credentialsKey namespace_ name) =
        (mergeSecrets [] (generatePlatformWorkloadIdentitySecrets m).1).get
          (credentialsKey namespace_ name) ∧
      resources.get ccoSecretFilename =
        some (Object.secret (generateCloudCredentialOperatorSecret m).1) ∧
      ∃ authentication : Authentication,
        resources.get authenticationConfigFilename =
          some (Object.authentication (some authentication)) := by
  refine ⟨credentialsKey_ne_ccoSecretFilename namespace_ name,
    credentialsKey_ne_authenticationConfigFilename namespace_ name,
    ccoSecretFilename_ne_authenticationConfigFilename, ?_⟩
  intro m resources h
  refine ⟨?_, get_ccoSecretFilename_of_success m resources h, ?_⟩
  · obtain ⟨_, issuer, _, rfl⟩ := eq_of_success m resources h
    rw [GoMap.get_set_of_ne _ _ _ _ (credentialsKey_ne_authenticationConfigFilename _ _),
      GoMap.get_set_of_ne _ _ _ _ (credentialsKey_ne_ccoSecretFilename _ _)]
  · obtain ⟨issuer, _, hget⟩ := get_authenticationConfigFilename_of_success m resources h
    exact ⟨_, hget⟩

/-- C16: when the call succeeds, the value kept under the key of a matched identity is
the secret derived from the last declared identity that yields this key: if no identity
declared after it yields the same key, the collection holds under that key the secret of
this identity, with its client id and the namespace and name of its role, whatever the
identities declared before it are. -/
theorem generateWorkloadIdentityResources_last_wins (m : manager) (resources : GoMap Object)
    (before after : List PlatformWorkloadIdentity) (identity : PlatformWorkloadIdentity)
    (role : PlatformWorkloadIdentityRole)
    (h : generateWorkloadIdentityResources m = (some resources, none))
    (hids : m.doc.OpenShiftCluster.Properties.PlatformWorkloadIdentityProfile.PlatformWorkloadIdentities
      = before ++ identity :: after)
    (hrole : m.platformWorkloadIdentityRolesByVersion.GetPlatformWorkloadIdentityRolesByRoleName.get
      identity.OperatorName = some role)
    (hlast : ∀ later ∈ after, ∀ laterRole,
      m.platformWorkloadIdentityRolesByVersion.GetPlatformWorkloadIdentityRolesByRoleName.get
        later.OperatorName = some laterRole →
      laterRole.SecretLocation.Namespace ++ "-" ++ laterRole.SecretLocation.Name
          ++ "-credentials.yaml" ≠
        role.SecretLocation.Namespace ++ "-" ++ role.SecretLocation.Name
          ++ "-credentials.yaml") :
    ∃ secret : Secret,
      resources.get (role.SecretLocation.Namespace ++ "-" ++ role.SecretLocation.Name
          ++ "-credentials.yaml") = some (Object.secret (some secret)) ∧
      secret = platformWorkloadIdentitySecret m identity role ∧
      secret.StringData.get "azure_client_id" = some identity.ClientID ∧
      secret.ObjectMeta.Namespace = role.SecretLocation.Namespace ∧
      secret.ObjectMeta.Name = role.SecretLocation.Name := by
  refine ⟨platformWorkloadIdentitySecret m identity role, ?_, rfl, ?_, rfl, rfl⟩
  · obtain ⟨_, issuer, _, rfl⟩ := eq_of_success m resources h
    have hkey : role.SecretLocation.Namespace ++ "-" ++ role.SecretLocation.Name
        ++ "-credentials.yaml" =
        credentialsKey role.SecretLocation.Namespace role.SecretLocation.Name := rfl
    rw [hkey, GoMap.get_set_of_ne _ _ _ _ (credentialsKey_ne_authenticationConfigFilename _ _),
      GoMap.get_set_of_ne _ _ _ _ (credentialsKey_ne_ccoSecretFilename _ _), get_mergeSecrets,
      generatePlatformWorkloadIdentitySecrets_eq]
    have hids' : declaredIdentities m = before ++ identity :: after := hids
    have hrole' : (roleCatalog m).get identity.OperatorName = some role := hrole
    have hafter : (List.filterMap (fun identity =>
          ((roleCatalog m).get identity.OperatorName).map
            (platformWorkloadIdentitySecret m identity)) after).reverse.find?
        (fun secret => decide (credentialsKey secret.ObjectMeta.Namespace secret.ObjectMeta.Name =
          credentialsKey role.SecretLocation.Namespace role.SecretLocation.Name)) = none := by
      rw [List.find?_eq_none]
      intro secret hsecret
      rw [List.mem_reverse, List.mem_filterMap] at hsecret
      obtain ⟨later, hlater, hmap⟩ := hsecret
      rw [Option.map_eq_some'] at hmap
      obtain ⟨laterRole, hlaterRole, rfl⟩ := hmap
      simpa [platformWorkloadIdentitySecret, credentialsKey] using
        hlast later hlater laterRole hlaterRole
    simp only [hids', List.filterMap_append, List.filterMap_cons, hrole', Option.map_some',
      List.reverse_append, List.reverse_cons, List.append_assoc, List.find?_append, hafter,
      Option.none_or]
    simp [platformWorkloadIdentitySecret]
  · simp [platformWorkloadIdentitySecret, GoMap.get]

theorem generateWorkloadIdentityResources_last_wins_witness :
    (∃ secret : Secret,
      hyphenCollisionResources.get ("a" ++ "-" ++ "b-c" ++ "-credentials.yaml") =
        some (Object.secret (some secret)) ∧
      secret = platformWorkloadIdentitySecret hyphenCollisionManager
        { OperatorName := "second", ClientID := "def" }
        { OperatorName := "second", SecretLocation := { Namespace := "a", Name := "b-c" } } ∧
      secret.StringData.get "azure_client_id" = some "def" ∧
      secret.ObjectMeta.Namespace = "a" ∧
      secret.ObjectMeta.Name = "b-c") ∧
    (∃ secret : Secret,
      duplicateIdentityResources.get ("openshift-cloud-controller-manager" ++ "-" ++
          "azure-credentials" ++ "-credentials.yaml") = some (Object.secret (some secret)) ∧
      secret = platformWorkloadIdentitySecret duplicateIdentityManager
        { OperatorName := "cloud-provider", ClientID := "def" }
        { OperatorName := "cloud-provider"
          SecretLocation := { Namespace := "openshift-cloud-controller-manager"
                              Name := "azure-credentials" } } ∧
      secret.StringData.get "azure_client_id" = some "def" ∧
      secret.ObjectMeta.Namespace = "openshift-cloud-controller-manager" ∧
      secret.ObjectMeta.Name = "azure-credentials") :=
  ⟨generateWorkloadIdentityResources_last_wins hyphenCollisionManager hyphenCollisionResources
      [{ OperatorName := "first", ClientID := "abc" }] []
      { OperatorName := "second", ClientID := "def" }
      { OperatorName := "second", SecretLocation := { Namespace := "a", Name := "b-c" } }
      (by decide) rfl (by decide) (by simp),
   generateWorkloadIdentityResources_last_wins duplicateIdentityManager duplicateIdentityResources
      [{ OperatorName := "cloud-provider", ClientID := "abc" }] []
      { OperatorName := "cloud-provider", ClientID := "def" }
      { OperatorName := "cloud-provider"
        SecretLocation := { Namespace := "openshift-cloud-controller-manager"
                            Name := "azure-credentials" } }
      (by decide) rfl (by decide) (by simp)⟩

end cluster
